import Mathlib

/-!
# Roaming motion controller of the VRM desktop assistant

Shallow embedding of the roaming code of `src/main/main.js`
(`roamingInterval`, `currentDirection`, `startRoaming`, the interval callback
and `stopRoaming`), followed further down by the embedding of the character
animation state machine of `src/renderer/vrm-renderer.js` and of the chat
manager of `src/renderer/chat-manager.js`, and then by the properties proved
about them.

Modelling conventions.

* Pixel coordinates, sizes, direction components and the stored speed are
  integers (`Int`); on integers `Math.round` is the identity.
* The stored speed may in fact be any number; `tickCallbackRat` is the tick for
  a speed given as a rational, with `Math.round` as `jsMathRound`, and agrees
  with the integer tick at integer speeds.
* The module-level variables and the collaborators the code reads (the main
  window, the primary display's work area, the settings store, the event
  loop's interval timers) are fields of one explicit `State`.
* The observable calls `mainWindow.setPosition` and
  `mainWindow.webContents.send` are appended to an effect trace.
-/

namespace Roaming

/-- Rectangle `{ x, y, width, height }`, as returned by `getBounds()` and by
`screen.getPrimaryDisplay().workArea`. -/
structure Rectangle where
  x : Int
  y : Int
  width : Int
  height : Int
deriving DecidableEq, Repr

/-- The object `currentDirection = { x, y }`. -/
structure Direction where
  x : Int
  y : Int
deriving DecidableEq, Repr

/-- What the roaming code observes of a `BrowserWindow`: `isVisible()` and
`getBounds()`. -/
structure BrowserWindow where
  visible : Bool
  bounds : Rectangle
deriving DecidableEq, Repr

/-- Calls on the window made by the interval callback, in program order. -/
inductive Effect where
  | setPosition (x y : Int)
  | movementUpdate (direction : Direction)
deriving DecidableEq, Repr

/-- An interval timer registered with `setInterval(callback, 50)`: its handle
and the `speed` constant captured by the callback's closure. -/
structure Interval where
  handle : Nat
  speed : Int
deriving DecidableEq, Repr

/-- Module state of `main.js` as far as roaming is concerned.
`roamingInterval = none` stands for the two falsy values the variable takes
(`undefined` before the first start, `null` after a stop); the code only ever
tests its truthiness. -/
structure State where
  mainWindow : Option BrowserWindow
  workArea : Rectangle
  roamingSpeed : Int
  roamingInterval : Option Nat
  timers : List Interval
  nextHandle : Nat
  currentDirection : Direction
  effects : List Effect
deriving DecidableEq, Repr

/-- `Math.round` restricted to integer arguments. -/
def mathRound (n : Int) : Int := n

/-- State at module load: `let mainWindow;`, `let roamingInterval;`,
`let currentDirection = { x: 1, y: 1 }`, store default `roamingSpeed: 2`,
no timer registered. The work area is whatever the display reports. -/
def initialState (workArea : Rectangle) : State :=
  { mainWindow := none
    workArea := workArea
    roamingSpeed := 2
    roamingInterval := none
    timers := []
    nextHandle := 1
    currentDirection := { x := 1, y := 1 }
    effects := [] }

/-- Body of the arrow function passed to `setInterval` in `startRoaming`
(`main.js` lines 172-199); `speed` is the constant captured by the closure.
After `setPosition` the window's bounds carry the committed position, which is
what the next `getBounds()` returns. -/
def tickCallback (speed : Int) (s : State) : State :=
  match s.mainWindow with
  | none => s
  | some w =>
    if w.visible = false then s
    else
      let bounds := w.bounds
      let workArea := s.workArea
      let newX := bounds.x + s.currentDirection.x * speed
      let newY := bounds.y + s.currentDirection.y * speed
      let hitX : Bool :=
        decide (newX ≤ workArea.x) ||
          decide (newX + bounds.width ≥ workArea.x + workArea.width)
      let dirX := if hitX then s.currentDirection.x * -1 else s.currentDirection.x
      let newX :=
        if hitX then
          max workArea.x (min newX (workArea.x + workArea.width - bounds.width))
        else newX
      let hitY : Bool :=
        decide (newY ≤ workArea.y) ||
          decide (newY + bounds.height ≥ workArea.y + workArea.height)
      let dirY := if hitY then s.currentDirection.y * -1 else s.currentDirection.y
      let newY :=
        if hitY then
          max workArea.y (min newY (workArea.y + workArea.height - bounds.height))
        else newY
      let direction : Direction := { x := dirX, y := dirY }
      { s with
        mainWindow :=
          some { w with bounds := { bounds with x := mathRound newX, y := mathRound newY } }
        currentDirection := direction
        effects :=
          s.effects ++
            [Effect.setPosition (mathRound newX) (mathRound newY),
             Effect.movementUpdate direction] }

/-- `Math.round` on a finite number: the nearest integer, a tie going to the
larger one. -/
def jsMathRound (q : ℚ) : Int := ⌊q + 1 / 2⌋

/-- Body of the interval callback (`main.js` lines 172-199) for a `speed` that
is any finite number, modelled by a rational: the stored `roamingSpeed` is
whatever number `set-setting` wrote, while bounds, work area and direction are
integers. The candidate position may then be fractional and `setPosition`
receives its rounding. -/
def tickCallbackRat (speed : ℚ) (s : State) : State :=
  match s.mainWindow with
  | none => s
  | some w =>
    if w.visible = false then s
    else
      let bounds := w.bounds
      let workArea := s.workArea
      let newX : ℚ := bounds.x + s.currentDirection.x * speed
      let newY : ℚ := bounds.y + s.currentDirection.y * speed
      let hitX : Bool :=
        decide (newX ≤ workArea.x) ||
          decide (newX + bounds.width ≥ workArea.x + workArea.width)
      let dirX := if hitX then s.currentDirection.x * -1 else s.currentDirection.x
      let newX : ℚ :=
        if hitX then
          max (workArea.x : ℚ) (min newX (workArea.x + workArea.width - bounds.width))
        else newX
      let hitY : Bool :=
        decide (newY ≤ workArea.y) ||
          decide (newY + bounds.height ≥ workArea.y + workArea.height)
      let dirY := if hitY then s.currentDirection.y * -1 else s.currentDirection.y
      let newY : ℚ :=
        if hitY then
          max (workArea.y : ℚ) (min newY (workArea.y + workArea.height - bounds.height))
        else newY
      let direction : Direction := { x := dirX, y := dirY }
      { s with
        mainWindow :=
          some { w with bounds := { bounds with x := jsMathRound newX, y := jsMathRound newY } }
        currentDirection := direction
        effects :=
          s.effects ++
            [Effect.setPosition (jsMathRound newX) (jsMathRound newY),
             Effect.movementUpdate direction] }

/-- The function `startRoaming` (`main.js` lines 167-200). -/
def startRoaming (s : State) : State :=
  match s.roamingInterval with
  | some _ => s
  | none =>
    let speed := s.roamingSpeed
    { s with
      roamingInterval := some s.nextHandle
      timers := s.timers ++ [{ handle := s.nextHandle, speed := speed }]
      nextHandle := s.nextHandle + 1 }

/-- The function `stopRoaming` (`main.js` lines 202-207): `clearInterval`
removes the timer registered under the handle. -/
def stopRoaming (s : State) : State :=
  match s.roamingInterval with
  | some h =>
    { s with
      timers := s.timers.filter (fun t => t.handle != h)
      roamingInterval := none }
  | none => s

/-- The event loop fires the interval registered under `handle`, if any. -/
def fire (handle : Nat) (s : State) : State :=
  match s.timers.find? (fun t => t.handle == handle) with
  | some t => tickCallback t.speed s
  | none => s

/-- Things that happen to the controller: calls of its two functions, a timer
firing, and changes made by the collaborators it reads from. -/
inductive Event where
  | startRoaming
  | stopRoaming
  | tick (handle : Nat)
  | setMainWindow (w : Option BrowserWindow)
  | setWorkArea (workArea : Rectangle)
  | setRoamingSpeed (speed : Int)
deriving DecidableEq, Repr

/-- One step of the controller. -/
def step (s : State) : Event → State
  | Event.startRoaming => startRoaming s
  | Event.stopRoaming => stopRoaming s
  | Event.tick h => fire h s
  | Event.setMainWindow w => { s with mainWindow := w }
  | Event.setWorkArea wa => { s with workArea := wa }
  | Event.setRoamingSpeed v => { s with roamingSpeed := v }

/-- Run a sequence of events from a state. -/
def run (s : State) (events : List Event) : State :=
  events.foldl step s

/-- The bound of the spec's "bounded motion" property for a position `(x, y)`:
`workArea.x <= x <= workArea.x + workArea.width - bounds.width` and the same
for `y`. -/
def withinWorkArea (workArea bounds : Rectangle) (x y : Int) : Prop :=
  workArea.x ≤ x ∧ x ≤ workArea.x + workArea.width - bounds.width ∧
    workArea.y ≤ y ∧ y ≤ workArea.y + workArea.height - bounds.height

instance (workArea bounds : Rectangle) (x y : Int) :
    Decidable (withinWorkArea workArea bounds x y) := by
  unfold withinWorkArea
  infer_instance

/-- Both components of a direction are `-1` or `+1`. -/
def unitDirection (d : Direction) : Prop :=
  (d.x = -1 ∨ d.x = 1) ∧ (d.y = -1 ∨ d.y = 1)

/-- The event loop holds exactly the timer recorded in `roamingInterval`: no
timer when the variable is unset, otherwise the one timer with that handle. -/
def timersMatchHandle (s : State) : Prop :=
  match s.roamingInterval with
  | none => s.timers = []
  | some h => ∃ v, s.timers = [{ handle := h, speed := v }]

/-- State with a visible window, used to evaluate single ticks. -/
def visibleState (workArea bounds : Rectangle) (direction : Direction) : State :=
  { mainWindow := some { visible := true, bounds := bounds }
    workArea := workArea
    roamingSpeed := 2
    roamingInterval := none
    timers := []
    nextHandle := 1
    currentDirection := direction
    effects := [] }

end Roaming

/-! # Character animation state machine

Shallow embedding of the animation-state code of `src/renderer/vrm-renderer.js`
(`constructor`, `useFallbackMode`, `setAnimationState`,
`updateCharacterStatus`, `onMovementUpdate`, `onChatStart`, `onChatResponse`).

* Animation states are the strings the code uses.
* Time is a virtual clock in milliseconds; `setTimeout(cb, d)` registers a
  timer due at `now + d`, and the event loop runs a timer once the clock has
  reached its due time.
* The DOM is reduced to the class list of the fallback character element and
  the text of the `.character-status` element, each of which may be absent.
-/

namespace Animation

/-- The two arrow functions handed to `setTimeout`: the one of
`onMovementUpdate` and the one of `onChatResponse`. -/
inductive Callback where
  | movementRevert
  | talkingRevert
deriving DecidableEq, Repr

/-- A pending timer of the event loop: handle, due time, callback. -/
structure Timeout where
  handle : Nat
  due : Nat
  callback : Callback
deriving DecidableEq, Repr

/-- The renderer object as far as the state machine is concerned, together with
the clock and the pending timers of the event loop. `movementTimeout = none`
is the `undefined` the property holds before the first movement signal. -/
structure VRMRenderer where
  currentState : String
  fallbackMode : Bool
  characterElement : Option (List String)
  statusElement : Option String
  movementTimeout : Option Nat
  now : Nat
  timers : List Timeout
  nextHandle : Nat
deriving DecidableEq, Repr

/-- The constant `this.animationStates.idle`. -/
def animationStates.idle : String := "idle"

/-- The constant `this.animationStates.talking`. -/
def animationStates.talking : String := "talking"

/-- The constant `this.animationStates.thinking`. -/
def animationStates.thinking : String := "thinking"

/-- The constant `this.animationStates.happy`. -/
def animationStates.happy : String := "happy"

/-- The constant `this.animationStates.moving`. -/
def animationStates.moving : String := "moving"

/-- The five values of `this.animationStates`. -/
def animationStateValues : List String :=
  [animationStates.idle, animationStates.talking, animationStates.thinking,
   animationStates.happy, animationStates.moving]

/-- The renderer right after `new VRMRenderer()`; `statusElement` is what the
document holds for `.character-status`, the clock starts at `now`. -/
def construct (statusElement : Option String) (now : Nat) : VRMRenderer :=
  { currentState := animationStates.idle
    fallbackMode := false
    characterElement := none
    statusElement := statusElement
    movementTimeout := none
    now := now
    timers := []
    nextHandle := 1 }

/-- The method `useFallbackMode` with `createCSSCharacter`: with a canvas the
character element is created with class `dog-character`; without one
`createCSSCharacter` throws at its first statement and creates nothing. -/
def useFallbackMode (canvas : Bool) (r : VRMRenderer) : VRMRenderer :=
  if canvas then { r with fallbackMode := true, characterElement := some ["dog-character"] }
  else { r with fallbackMode := true }

/-- The object literal `statusMap` of `updateCharacterStatus`. -/
def statusMap : List (String × String) :=
  [(animationStates.idle, "Ready"),
   (animationStates.talking, "Talking"),
   (animationStates.thinking, "Thinking"),
   (animationStates.happy, "Happy"),
   (animationStates.moving, "Moving")]

/-- The method `updateCharacterStatus`: when the status element exists its text
becomes `statusMap[state] || 'Ready'`. -/
def updateCharacterStatus (state : String) (r : VRMRenderer) : VRMRenderer :=
  match r.statusElement with
  | some _ => { r with statusElement := some ((statusMap.lookup state).getD "Ready") }
  | none => r

/-- The DOM operation `classList.add(token)`. -/
def classListAdd (classes : List String) (token : String) : List String :=
  if token ∈ classes then classes else classes ++ [token]

/-- The method `setAnimationState`. -/
def setAnimationState (state : String) (r : VRMRenderer) : VRMRenderer :=
  let r1 := { r with currentState := state }
  let r2 :=
    match r1.fallbackMode, r1.characterElement with
    | true, some _ =>
      let className := ["dog-character"]
      if state ≠ animationStates.idle then
        { r1 with characterElement := some (classListAdd className state) }
      else { r1 with characterElement := some className }
    | _, _ => r1
  updateCharacterStatus state r2

/-- The call `clearTimeout(handle)`: an undefined or stale handle clears
nothing. -/
def clearTimeout (handle : Option Nat) (r : VRMRenderer) : VRMRenderer :=
  match handle with
  | some h => { r with timers := r.timers.filter (fun t => t.handle != h) }
  | none => r

/-- The call `setTimeout(callback, delay)`: returns the new state and the
handle. -/
def setTimeout (callback : Callback) (delay : Nat) (r : VRMRenderer) : VRMRenderer × Nat :=
  ({ r with
      timers := r.timers ++ [{ handle := r.nextHandle, due := r.now + delay, callback := callback }]
      nextHandle := r.nextHandle + 1 },
    r.nextHandle)

/-- The method `onMovementUpdate`; the `direction` argument is not read. -/
def onMovementUpdate (_direction : Roaming.Direction) (r : VRMRenderer) : VRMRenderer :=
  let r1 := setAnimationState animationStates.moving r
  let r2 := clearTimeout r1.movementTimeout r1
  let (r3, handle) := setTimeout Callback.movementRevert 1000 r2
  { r3 with movementTimeout := some handle }

/-- The method `onChatStart`. -/
def onChatStart (r : VRMRenderer) : VRMRenderer :=
  setAnimationState animationStates.thinking r

/-- The method `onChatResponse`; the handle `setTimeout` returns is dropped. -/
def onChatResponse (r : VRMRenderer) : VRMRenderer :=
  let r1 := setAnimationState animationStates.talking r
  (setTimeout Callback.talkingRevert 2000 r1).1

/-- Body of a timer callback: both call `setAnimationState(idle)`. -/
def runCallback (callback : Callback) (r : VRMRenderer) : VRMRenderer :=
  match callback with
  | Callback.movementRevert => setAnimationState animationStates.idle r
  | Callback.talkingRevert => setAnimationState animationStates.idle r

/-- Let `dt` milliseconds pass with no call from outside: the timers due by then
run in order of due time (registration order among equal due times) and leave
the pending list; the others stay pending. -/
def advance (dt : Nat) (r : VRMRenderer) : VRMRenderer :=
  let deadline := r.now + dt
  let due :=
    (r.timers.filter (fun t => t.due ≤ deadline)).insertionSort (fun a b => a.due ≤ b.due)
  let rest := r.timers.filter (fun t => deadline < t.due)
  let r1 := due.foldl (fun acc t => runCallback t.callback acc) { r with timers := rest }
  { r1 with now := deadline }

/-- What can happen to the renderer: its three entry points, the passing of
time, and the two changes other code makes to what `setAnimationState` reads
(fallback initialisation, the document's status element). -/
inductive Event where
  | onMovementUpdate (direction : Roaming.Direction)
  | onChatStart
  | onChatResponse
  | advance (dt : Nat)
  | useFallbackMode (canvas : Bool)
  | setStatusElement (e : Option String)
deriving DecidableEq, Repr

/-- One step of the renderer. -/
def step (r : VRMRenderer) : Event → VRMRenderer
  | Event.onMovementUpdate d => onMovementUpdate d r
  | Event.onChatStart => onChatStart r
  | Event.onChatResponse => onChatResponse r
  | Event.advance dt => advance dt r
  | Event.useFallbackMode canvas => useFallbackMode canvas r
  | Event.setStatusElement e => { r with statusElement := e }

/-- Run a sequence of events from a renderer state. -/
def run (r : VRMRenderer) (events : List Event) : VRMRenderer :=
  events.foldl step r

/-- The status text the specification assigns to a state: `idle -> "Ready"`,
`moving -> "Moving"`, `thinking -> "Thinking"`, `talking -> "Talking"`,
`happy -> "Happy"`. -/
def specStatusLabel (state : String) : String :=
  if state = "idle" then "Ready"
  else if state = "moving" then "Moving"
  else if state = "thinking" then "Thinking"
  else if state = "talking" then "Talking"
  else if state = "happy" then "Happy"
  else ""

/-- The movement timers among the pending ones. -/
def movementTimers (r : VRMRenderer) : List Timeout :=
  r.timers.filter (fun t => t.callback == Callback.movementRevert)

/-- At most one movement timer is pending, and it is the one whose handle
`movementTimeout` holds. -/
def movementTimerTracked (r : VRMRenderer) : Prop :=
  movementTimers r = [] ∨
    ∃ t, movementTimers r = [t] ∧ r.movementTimeout = some t.handle

/-- No timer is pending other than the movement timer whose handle
`movementTimeout` holds. -/
def onlyMovementPending (r : VRMRenderer) : Prop :=
  ∀ t ∈ r.timers, r.movementTimeout = some t.handle

/-- The state is `moving` and the one pending timer is the movement timer set
at the current instant. -/
def movingSince (r : VRMRenderer) : Prop :=
  r.currentState = animationStates.moving ∧
    ∃ h, r.timers = [{ handle := h, due := r.now + 1000, callback := Callback.movementRevert }] ∧
      r.movementTimeout = some h

/-- Every pending timer is due in the future, a `moving` state has a pending
movement timer and a `talking` state has a pending talking timer. -/
def revertPending (r : VRMRenderer) : Prop :=
  (∀ t ∈ r.timers, r.now < t.due) ∧
    (r.currentState = animationStates.moving →
      ∃ t ∈ r.timers, t.callback = Callback.movementRevert) ∧
    (r.currentState = animationStates.talking →
      ∃ t ∈ r.timers, t.callback = Callback.talkingRevert)

/-- A burst of movement signals: a first `onMovementUpdate`, then for each gap
in `gaps` that many milliseconds pass and another `onMovementUpdate` follows. -/
def movementBurst (d : Roaming.Direction) (gaps : List Nat) (r : VRMRenderer) : VRMRenderer :=
  gaps.foldl (fun acc g => onMovementUpdate d (advance g acc)) (onMovementUpdate d r)

/-- The state classes for which the stylesheet written by `createCSSCharacter`
has a `.dog-character.<state>` rule: `talking`, `thinking`, `happy`, `moving`
and (the "cute glow effect") `idle`. -/
def styledStateClasses : List String :=
  ["talking", "thinking", "happy", "moving", "idle"]

end Animation

/-! # Chat manager

Shallow embedding of the chat-history code of `src/renderer/chat-manager.js`
(`constructor`, `sendMessage`, `sendToAI`, `addMessageToUI`, `limitMessages`,
`setTyping`).

* An `async` method is run to completion; what its awaited `fetch` yields is a
  parameter of the call.
* A statement that may throw returns the state reached together with an
  `Except` value; `try`/`catch`/`finally` are spelled out on it.
* The DOM is reduced to the text of the input field and the list of `.message`
  elements; calls on collaborators are appended to an effect trace.
-/

namespace Chat

/-- A chat message `{ role, content }`. -/
structure Message where
  role : String
  content : String
deriving DecidableEq, Repr

/-- Calls the chat manager makes on its collaborators, in program order. -/
inductive Effect where
  | onChatStart
  | onChatResponse
  | fetch (messages : List Message)
  | showToast (message : String)
  | openSettings
deriving DecidableEq, Repr

/-- How the request of `sendToAI` ends: `fetch` rejects, the response is not
`ok`, the answer lacks `choices[0].message`, or it carries a content. -/
inductive FetchOutcome where
  | rejected (error : String)
  | notOk (error : String)
  | invalidFormat
  | ok (content : String)
deriving DecidableEq, Repr

/-- The chat manager object, with `window.vrmRenderer` (set or not) and the
effect trace. `chatMessages` lists the `.message` elements of the panel by the
message each shows. -/
structure ChatManager where
  apiKey : String
  chatHistory : List Message
  isTyping : Bool
  maxMessages : Nat
  systemPrompt : String
  chatInput : String
  chatMessages : List Message
  vrmRenderer : Bool
  effects : List Effect
deriving DecidableEq, Repr

/-- White space in the sense of `String.prototype.trim`. -/
def jsWhiteSpace (c : Char) : Bool :=
  let n := c.toNat
  (9 ≤ n && n ≤ 13) || n == 32 || n == 160 || n == 5760 || (8192 ≤ n && n ≤ 8202) ||
    n == 8232 || n == 8233 || n == 8239 || n == 8287 || n == 12288 || n == 65279

/-- The method `String.prototype.trim`. -/
def jsTrim (s : String) : String :=
  String.mk ((s.data.dropWhile jsWhiteSpace).reverse.dropWhile jsWhiteSpace).reverse

/-- The call `array.slice(start)` of `Array.prototype.slice`: a negative
`start` counts from the end, and the start index is clamped to the array. -/
def jsSlice {α : Type} (l : List α) (start : Int) : List α :=
  let len : Int := l.length
  let k : Int := if start < 0 then max (len + start) 0 else min start len
  l.drop k.toNat

/-- The state after `new ChatManager()`: empty key, empty history, not typing,
`maxMessages = 50`. The prompt text and the presence of `window.vrmRenderer`
are given. -/
def construct (systemPrompt : String) (vrmRenderer : Bool) : ChatManager :=
  { apiKey := ""
    chatHistory := []
    isTyping := false
    maxMessages := 50
    systemPrompt := systemPrompt
    chatInput := ""
    chatMessages := []
    vrmRenderer := vrmRenderer
    effects := [] }

/-- The method `limitMessages`: the first `excess` message elements are
removed, and the history is cut to `slice(-maxMessages)` when longer than
`maxMessages`. -/
def limitMessages (c : ChatManager) : ChatManager :=
  let messages := c.chatMessages
  let c1 :=
    if messages.length > c.maxMessages then
      let excess := messages.length - c.maxMessages
      { c with chatMessages := messages.drop excess }
    else c
  if c1.chatHistory.length > c1.maxMessages then
    { c1 with chatHistory := jsSlice c1.chatHistory (-(c1.maxMessages : Int)) }
  else c1

/-- The method `addMessageToUI`. -/
def addMessageToUI (message : Message) (c : ChatManager) : ChatManager :=
  limitMessages { c with chatMessages := c.chatMessages ++ [message] }

/-- The method `setTyping`. -/
def setTyping (isTyping : Bool) (c : ChatManager) : ChatManager :=
  { c with isTyping := isTyping }

/-- The constant `messages` of `sendToAI`: the system message followed by
`chatHistory.slice(-10)`. -/
def requestMessages (c : ChatManager) : List Message :=
  [{ role := "system", content := c.systemPrompt }] ++ jsSlice c.chatHistory (-10)

/-- The method `sendToAI`: the request is dispatched, then the method throws or
returns the trimmed content according to the outcome. -/
def sendToAI (outcome : FetchOutcome) (c : ChatManager) : ChatManager × Except String String :=
  let messages := requestMessages c
  let c1 := { c with effects := c.effects ++ [Effect.fetch messages] }
  match outcome with
  | FetchOutcome.rejected e => (c1, Except.error e)
  | FetchOutcome.notOk e => (c1, Except.error e)
  | FetchOutcome.invalidFormat => (c1, Except.error "Invalid response format from API")
  | FetchOutcome.ok content => (c1, Except.ok (jsTrim content))

/-- The `try` block of `sendMessage`. -/
def sendMessageTry (outcome : FetchOutcome) (c : ChatManager) : ChatManager × Except String Unit :=
  match sendToAI outcome c with
  | (c1, Except.error e) => (c1, Except.error e)
  | (c1, Except.ok response) =>
    let assistantMessage : Message := { role := "assistant", content := response }
    let c2 := addMessageToUI assistantMessage c1
    let c3 := { c2 with chatHistory := c2.chatHistory ++ [assistantMessage] }
    let c4 :=
      if c3.vrmRenderer then { c3 with effects := c3.effects ++ [Effect.onChatResponse] }
      else c3
    (c4, Except.ok ())

/-- The method `sendMessage`. The result is `Except.ok` when the call completes
and `Except.error` when an error leaves it. -/
def sendMessage (outcome : FetchOutcome) (c : ChatManager) : Except String ChatManager :=
  let message := jsTrim c.chatInput
  if message = "" ∨ c.isTyping = true then Except.ok c
  else if c.apiKey = "" then
    Except.ok
      { c with
        effects :=
          c.effects ++
            [Effect.showToast "Please configure your API key in settings first",
             Effect.openSettings] }
  else
    let userMessage : Message := { role := "user", content := message }
    let c1 := addMessageToUI userMessage c
    let c2 := { c1 with chatHistory := c1.chatHistory ++ [userMessage] }
    let c3 := { c2 with chatInput := "" }
    let c4 := setTyping true c3
    let c5 :=
      if c4.vrmRenderer then { c4 with effects := c4.effects ++ [Effect.onChatStart] }
      else c4
    match sendMessageTry outcome c5 with
    | (c6, Except.ok _) => Except.ok (setTyping false c6)
    | (c6, Except.error _) => Except.ok (setTyping false c6)

/-- The state of `sendMessage` at the entry of its `try` block, for a call that
has passed the guards: user message shown and pushed, input cleared, typing
set, `onChatStart` called when a renderer is registered. -/
def beforeTry (c : ChatManager) : ChatManager :=
  let userMessage : Message := { role := "user", content := jsTrim c.chatInput }
  let c1 := addMessageToUI userMessage c
  let c2 := { c1 with chatHistory := c1.chatHistory ++ [userMessage] }
  let c3 := { c2 with chatInput := "" }
  let c4 := setTyping true c3
  if c4.vrmRenderer then { c4 with effects := c4.effects ++ [Effect.onChatStart] }
  else c4

/-- What happens to the chat manager: the user types a text and sends it (with
the outcome of the request), the settings are loaded, the renderer is
registered or removed. -/
inductive Event where
  | sendMessage (input : String) (outcome : FetchOutcome)
  | loadSettings (apiKey : String)
  | setVrmRenderer (present : Bool)
deriving DecidableEq, Repr

/-- One step of the chat manager; a call left by an error changes nothing
more. -/
def step (c : ChatManager) : Event → ChatManager
  | Event.sendMessage input outcome =>
    match sendMessage outcome { c with chatInput := input } with
    | Except.ok c1 => c1
    | Except.error _ => { c with chatInput := input }
  | Event.loadSettings apiKey => { c with apiKey := apiKey }
  | Event.setVrmRenderer present => { c with vrmRenderer := present }

/-- Run a sequence of events from a chat manager state. -/
def run (c : ChatManager) (events : List Event) : ChatManager :=
  events.foldl step c

/-- The last `n` elements of a list in their original order, as the
specification words it. -/
def lastElements {α : Type} (n : Nat) (l : List α) : List α :=
  (l.reverse.take n).reverse

end Chat

namespace Roaming

/-! ## Single tick on a visible window -/

/-- C1 (counterexample). With a window wider than the work area (work area
`(0,0,100,100)`, window `300x400` at `(0,0)`, direction `(1,1)`, speed `2`) the
tick calls `setPosition(0, 0)`, and `(0, 0)` is not within the stated bounds,
whose upper limit for `x` is `0 + 100 - 300 = -200`. -/
theorem C1_bounded_motion_fails_for_oversized_window :
    (tickCallback 2 (visibleState ⟨0, 0, 100, 100⟩ ⟨0, 0, 300, 400⟩ ⟨1, 1⟩)).effects
        = [Effect.setPosition 0 0, Effect.movementUpdate ⟨-1, -1⟩] ∧
      ¬ withinWorkArea ⟨0, 0, 100, 100⟩ ⟨0, 0, 300, 400⟩ 0 0 := by
  decide

/-- C1 (amended). Bounded motion for windows no larger than the work area: for
every tick executed on a visible window whose width and height do not exceed
those of the work area, whatever the prior position, direction and speed, the
tick makes exactly one `setPosition(x, y)` call and that position lies within
the work area: `workArea.x <= x <= workArea.x + workArea.width - bounds.width`
and likewise for `y`. -/
theorem C1_bounded_motion (speed : Int) (s : State) (w : BrowserWindow)
    (hw : s.mainWindow = some w) (hv : w.visible = true)
    (hwidth : w.bounds.width ≤ s.workArea.width)
    (hheight : w.bounds.height ≤ s.workArea.height) :
    ∃ x y d,
      (tickCallback speed s).effects
          = s.effects ++ [Effect.setPosition x y, Effect.movementUpdate d] ∧
        withinWorkArea s.workArea w.bounds x y := by
  simp only [tickCallback, hw, hv, mathRound]
  refine ⟨_, _, _, rfl, ?_⟩
  unfold withinWorkArea
  refine ⟨?_, ?_, ?_, ?_⟩ <;> split <;> simp_all <;> omega

/-- Witness for C1: speed 5, work area `(0,0,1000,800)`, window `300x400` at
`(698,10)`, direction `(1,-1)`. -/
theorem C1_bounded_motion_witness :
    ∃ x y d,
      (tickCallback 5 (visibleState ⟨0, 0, 1000, 800⟩ ⟨698, 10, 300, 400⟩ ⟨1, -1⟩)).effects
          = (visibleState ⟨0, 0, 1000, 800⟩ ⟨698, 10, 300, 400⟩ ⟨1, -1⟩).effects
              ++ [Effect.setPosition x y, Effect.movementUpdate d] ∧
        withinWorkArea ⟨0, 0, 1000, 800⟩ ⟨698, 10, 300, 400⟩ x y :=
  C1_bounded_motion 5 (visibleState ⟨0, 0, 1000, 800⟩ ⟨698, 10, 300, 400⟩ ⟨1, -1⟩)
    { visible := true, bounds := ⟨698, 10, 300, 400⟩ } rfl rfl (by decide) (by decide)

/-- C2. Reflection at the right edge: on a visible window no wider than the
work area, with direction `(1,1)` and a positive speed, if
`x + speed + bounds.width >= workArea.x + workArea.width` then the tick sets
`currentDirection.x` to `-1` and calls `setPosition` with
`x = workArea.x + workArea.width - bounds.width`. (The proof does not use the
positivity of the speed.) -/
theorem C2_reflection_right_edge (speed : Int) (s : State) (w : BrowserWindow)
    (hw : s.mainWindow = some w) (hv : w.visible = true)
    (hwidth : w.bounds.width ≤ s.workArea.width)
    (hdir : s.currentDirection = { x := 1, y := 1 }) (_hspeed : 0 < speed)
    (hedge : w.bounds.x + speed + w.bounds.width ≥ s.workArea.x + s.workArea.width) :
    (tickCallback speed s).currentDirection.x = -1 ∧
      ∃ y d,
        (tickCallback speed s).effects
          = s.effects ++
              [Effect.setPosition (s.workArea.x + s.workArea.width - w.bounds.width) y,
               Effect.movementUpdate d] := by
  have hhit : w.bounds.x + speed ≤ s.workArea.x ∨
      s.workArea.x + s.workArea.width ≤ w.bounds.x + speed + w.bounds.width := by
    right; omega
  have hclamp : max s.workArea.x
      (min (w.bounds.x + speed) (s.workArea.x + s.workArea.width - w.bounds.width))
        = s.workArea.x + s.workArea.width - w.bounds.width := by
    omega
  simp only [tickCallback, hw, hv, hdir, mathRound]
  simp [hhit, hclamp]

/-- Witness for C2: the spec's speed 5, work area `(0,0,1000,800)`, window
`300x400` at `(696,100)`, one step from the right edge. -/
theorem C2_reflection_right_edge_witness :
    (tickCallback 5 (visibleState ⟨0, 0, 1000, 800⟩ ⟨696, 100, 300, 400⟩ ⟨1, 1⟩)).currentDirection.x
        = -1 ∧
      ∃ y d,
        (tickCallback 5 (visibleState ⟨0, 0, 1000, 800⟩ ⟨696, 100, 300, 400⟩ ⟨1, 1⟩)).effects
          = (visibleState ⟨0, 0, 1000, 800⟩ ⟨696, 100, 300, 400⟩ ⟨1, 1⟩).effects ++
              [Effect.setPosition (0 + 1000 - 300) y, Effect.movementUpdate d] :=
  C2_reflection_right_edge 5 (visibleState ⟨0, 0, 1000, 800⟩ ⟨696, 100, 300, 400⟩ ⟨1, 1⟩)
    { visible := true, bounds := ⟨696, 100, 300, 400⟩ } rfl rfl (by decide) rfl (by decide)
    (by decide)

/-- C3. Edge-reflection rule: in a tick on a visible window, with
`newX = bounds.x + dir.x * speed`, the new `dir.x` is the negation of the old
one when `newX <= workArea.x` or `newX + bounds.width >= workArea.x +
workArea.width`, and the old one otherwise; the same holds independently for
`dir.y` with `newY`, `bounds.height`, `workArea.y` and `workArea.height`. -/
theorem C3_edge_reflection_rule (speed : Int) (s : State) (w : BrowserWindow)
    (hw : s.mainWindow = some w) (hv : w.visible = true) :
    (tickCallback speed s).currentDirection.x
        = (if w.bounds.x + s.currentDirection.x * speed ≤ s.workArea.x ∨
              w.bounds.x + s.currentDirection.x * speed + w.bounds.width
                ≥ s.workArea.x + s.workArea.width
            then -s.currentDirection.x else s.currentDirection.x) ∧
      (tickCallback speed s).currentDirection.y
        = (if w.bounds.y + s.currentDirection.y * speed ≤ s.workArea.y ∨
              w.bounds.y + s.currentDirection.y * speed + w.bounds.height
                ≥ s.workArea.y + s.workArea.height
            then -s.currentDirection.y else s.currentDirection.y) := by
  simp only [tickCallback, hw, hv, mathRound]
  simp

/-- Witness for C3: at `(698,10)` with direction `(1,-1)` and speed 5 in the
work area `(0,0,1000,800)` both components are negated. -/
theorem C3_edge_reflection_rule_witness :
    (tickCallback 5 (visibleState ⟨0, 0, 1000, 800⟩ ⟨698, 3, 300, 400⟩ ⟨1, -1⟩)).currentDirection.x
        = -1 ∧
      (tickCallback 5 (visibleState ⟨0, 0, 1000, 800⟩ ⟨698, 3, 300, 400⟩ ⟨1, -1⟩)).currentDirection.y
        = 1 :=
  C3_edge_reflection_rule 5 (visibleState ⟨0, 0, 1000, 800⟩ ⟨698, 3, 300, 400⟩ ⟨1, -1⟩)
    { visible := true, bounds := ⟨698, 3, 300, 400⟩ } rfl rfl

/-- Free step at an integer speed: in a tick on a visible window whose
candidate position is strictly inside the work area on both axes,
`setPosition` is called with exactly `(x + dir.x * speed, y + dir.y * speed)`,
the direction sent and kept is the unchanged one. -/
theorem tickCallback_free_step (speed : Int) (s : State) (w : BrowserWindow)
    (hw : s.mainWindow = some w) (hv : w.visible = true)
    (hleft : s.workArea.x < w.bounds.x + s.currentDirection.x * speed)
    (hright : w.bounds.x + s.currentDirection.x * speed + w.bounds.width
      < s.workArea.x + s.workArea.width)
    (htop : s.workArea.y < w.bounds.y + s.currentDirection.y * speed)
    (hbottom : w.bounds.y + s.currentDirection.y * speed + w.bounds.height
      < s.workArea.y + s.workArea.height) :
    (tickCallback speed s).effects
        = s.effects ++
            [Effect.setPosition (w.bounds.x + s.currentDirection.x * speed)
               (w.bounds.y + s.currentDirection.y * speed),
             Effect.movementUpdate s.currentDirection] ∧
      (tickCallback speed s).currentDirection = s.currentDirection := by
  have hx : ¬ (w.bounds.x + s.currentDirection.x * speed ≤ s.workArea.x ∨
      s.workArea.x + s.workArea.width
        ≤ w.bounds.x + s.currentDirection.x * speed + w.bounds.width) := by
    omega
  have hy : ¬ (w.bounds.y + s.currentDirection.y * speed ≤ s.workArea.y ∨
      s.workArea.y + s.workArea.height
        ≤ w.bounds.y + s.currentDirection.y * speed + w.bounds.height) := by
    omega
  simp only [tickCallback, hw, hv, mathRound]
  simp [hx, hy]

/-! ## Fractional speeds -/

theorem jsMathRound_intCast (n : Int) : jsMathRound (n : ℚ) = n := by
  unfold jsMathRound
  rw [Int.floor_eq_iff]
  constructor <;> norm_num

theorem hit_intCast (a lo size extent : Int) :
    (decide ((a : ℚ) ≤ (lo : ℚ)) || decide ((a : ℚ) + (size : ℚ) ≥ (lo : ℚ) + (extent : ℚ)))
      = (decide (a ≤ lo) || decide (a + size ≥ lo + extent)) := by
  congr 1
  · rw [decide_eq_decide]
    exact Int.cast_le
  · rw [decide_eq_decide]
    constructor
    · intro h
      exact_mod_cast h
    · intro h
      exact_mod_cast h

theorem clamp_intCast (c : Bool) (a lo size extent : Int) :
    jsMathRound
        (if c = true then max (lo : ℚ) (min (a : ℚ) ((lo : ℚ) + (extent : ℚ) - (size : ℚ)))
         else (a : ℚ))
      = mathRound (if c = true then max lo (min a (lo + extent - size)) else a) := by
  unfold mathRound
  cases c
  · simp only [Bool.false_eq_true, if_false]
    exact jsMathRound_intCast a
  · simp only [if_true]
    have h : max (lo : ℚ) (min (a : ℚ) ((lo : ℚ) + (extent : ℚ) - (size : ℚ)))
        = ((max lo (min a (lo + extent - size)) : Int) : ℚ) := by
      push_cast
      rfl
    rw [h]
    exact jsMathRound_intCast _

/-- At an integer speed the tick on numbers is the tick on integers: the
integer embedding is the restriction of the code to integer speeds. -/
theorem tickCallbackRat_intCast (speed : Int) (s : State) :
    tickCallbackRat (speed : ℚ) s = tickCallback speed s := by
  unfold tickCallbackRat tickCallback
  cases s.mainWindow with
  | none => rfl
  | some w =>
    dsimp only
    have hx : ((w.bounds.x : ℚ) + (s.currentDirection.x : ℚ) * (speed : ℚ))
        = ((w.bounds.x + s.currentDirection.x * speed : Int) : ℚ) := by push_cast; ring
    have hy : ((w.bounds.y : ℚ) + (s.currentDirection.y : ℚ) * (speed : ℚ))
        = ((w.bounds.y + s.currentDirection.y * speed : Int) : ℚ) := by push_cast; ring
    rw [hx, hy]
    simp only [hit_intCast, clamp_intCast]

/-- C4 (counterexample). Speed `2.5`, work area `(0,0,1000,800)`, window
`300x400` at `(100,100)`, direction `(1,1)`: the candidate `(102.5, 102.5)` is
strictly inside the work area on both axes, and the tick calls
`setPosition(103, 103)`, which is not `(x + dir.x * speed, y + dir.y * speed)`. -/
theorem C4_free_step_fails_for_fractional_speed :
    ((0 : ℚ) < 100 + 1 * (5 / 2) ∧ (100 : ℚ) + 1 * (5 / 2) + 300 < 0 + 1000 ∧
        (0 : ℚ) < 100 + 1 * (5 / 2) ∧ (100 : ℚ) + 1 * (5 / 2) + 400 < 0 + 800) ∧
      (tickCallbackRat (5 / 2)
          (visibleState ⟨0, 0, 1000, 800⟩ ⟨100, 100, 300, 400⟩ ⟨1, 1⟩)).effects
        = [Effect.setPosition 103 103, Effect.movementUpdate ⟨1, 1⟩] ∧
      (((103 : Int) : ℚ) ≠ 100 + 1 * (5 / 2)) := by
  have hround : jsMathRound ((100 : ℚ) + 5 / 2) = 103 := by
    unfold jsMathRound
    rw [Int.floor_eq_iff]
    constructor <;> norm_num
  refine ⟨by norm_num, ?_, by norm_num⟩
  have hx : ¬ ((100 : ℚ) + 5 / 2 ≤ 0 ∨ (1000 : ℚ) ≤ 100 + 5 / 2 + 300) := by norm_num
  have hy : ¬ ((100 : ℚ) + 5 / 2 ≤ 0 ∨ (800 : ℚ) ≤ 100 + 5 / 2 + 400) := by norm_num
  simp [tickCallbackRat, visibleState, hx, hy, hround]

/-- C4 (amended). Free step: in a tick on a visible window whose candidate
position is strictly inside the work area on both axes, `setPosition` is
called with `(Math.round(x + dir.x * speed), Math.round(y + dir.y * speed))`,
which is exactly `(x + dir.x * speed, y + dir.y * speed)` when the speed is an
integer, and the direction sent and kept is the unchanged one. -/
theorem C4_free_step (speed : ℚ) (s : State) (w : BrowserWindow)
    (hw : s.mainWindow = some w) (hv : w.visible = true)
    (hleft : (s.workArea.x : ℚ) < w.bounds.x + s.currentDirection.x * speed)
    (hright : (w.bounds.x : ℚ) + s.currentDirection.x * speed + w.bounds.width
      < s.workArea.x + s.workArea.width)
    (htop : (s.workArea.y : ℚ) < w.bounds.y + s.currentDirection.y * speed)
    (hbottom : (w.bounds.y : ℚ) + s.currentDirection.y * speed + w.bounds.height
      < s.workArea.y + s.workArea.height) :
    (tickCallbackRat speed s).effects
        = s.effects ++
            [Effect.setPosition (jsMathRound (w.bounds.x + s.currentDirection.x * speed))
               (jsMathRound (w.bounds.y + s.currentDirection.y * speed)),
             Effect.movementUpdate s.currentDirection] ∧
      (tickCallbackRat speed s).currentDirection = s.currentDirection ∧
      (∀ n : Int, speed = n →
        (tickCallbackRat speed s).effects
          = s.effects ++
              [Effect.setPosition (w.bounds.x + s.currentDirection.x * n)
                 (w.bounds.y + s.currentDirection.y * n),
               Effect.movementUpdate s.currentDirection]) := by
  have hx : ¬ ((w.bounds.x : ℚ) + s.currentDirection.x * speed ≤ s.workArea.x ∨
      (s.workArea.x : ℚ) + s.workArea.width
        ≤ w.bounds.x + s.currentDirection.x * speed + w.bounds.width) := by
    intro h
    rcases h with h | h <;> linarith
  have hy : ¬ ((w.bounds.y : ℚ) + s.currentDirection.y * speed ≤ s.workArea.y ∨
      (s.workArea.y : ℚ) + s.workArea.height
        ≤ w.bounds.y + s.currentDirection.y * speed + w.bounds.height) := by
    intro h
    rcases h with h | h <;> linarith
  have heffects : (tickCallbackRat speed s).effects
      = s.effects ++
          [Effect.setPosition (jsMathRound (w.bounds.x + s.currentDirection.x * speed))
             (jsMathRound (w.bounds.y + s.currentDirection.y * speed)),
           Effect.movementUpdate s.currentDirection] := by
    simp only [tickCallbackRat, hw, hv]
    simp [hx, hy]
  refine ⟨heffects, ?_, ?_⟩
  · simp only [tickCallbackRat, hw, hv]
    simp [hx, hy]
  · intro n hn
    rw [heffects, hn]
    have h1 : ((w.bounds.x : ℚ) + (s.currentDirection.x : ℚ) * (n : ℚ))
        = ((w.bounds.x + s.currentDirection.x * n : Int) : ℚ) := by push_cast; ring
    have h2 : ((w.bounds.y : ℚ) + (s.currentDirection.y : ℚ) * (n : ℚ))
        = ((w.bounds.y + s.currentDirection.y * n : Int) : ℚ) := by push_cast; ring
    rw [h1, h2, jsMathRound_intCast, jsMathRound_intCast]

/-- Witness for C4, the spec's scenario: speed 2, work area `(0,0,1000,800)`,
window `300x400` at `(0,0)`, direction `(1,1)`; one tick commits `(2,2)` and
keeps direction `(1,1)`. -/
theorem C4_free_step_witness :
    (tickCallbackRat 2 (visibleState ⟨0, 0, 1000, 800⟩ ⟨0, 0, 300, 400⟩ ⟨1, 1⟩)).effects
        = [Effect.setPosition 2 2, Effect.movementUpdate ⟨1, 1⟩] ∧
      (tickCallbackRat 2
        (visibleState ⟨0, 0, 1000, 800⟩ ⟨0, 0, 300, 400⟩ ⟨1, 1⟩)).currentDirection
        = ⟨1, 1⟩ := by
  have h := C4_free_step 2 (visibleState ⟨0, 0, 1000, 800⟩ ⟨0, 0, 300, 400⟩ ⟨1, 1⟩)
    { visible := true, bounds := ⟨0, 0, 300, 400⟩ } rfl rfl
    (by norm_num [visibleState]) (by norm_num [visibleState])
    (by norm_num [visibleState]) (by norm_num [visibleState])
  exact ⟨h.2.2 2 (by norm_num), h.2.1⟩

/-- C5 (counterexample). Work area `(0,0,1000,800)`, window `300x400` at
`(699,0)`, direction `(1,1)`, speed 2: it is not the case that `dir.x` stays
`+1` and `x = 701` is committed. The candidate `701` has its right edge at
`1001 >= 1000`, so the tick reflects. -/
theorem C5_off_by_one_scenario_fails :
    ¬ ((tickCallback 2 (visibleState ⟨0, 0, 1000, 800⟩ ⟨699, 0, 300, 400⟩ ⟨1, 1⟩)).currentDirection.x
          = 1 ∧
        ∃ y d,
          (tickCallback 2 (visibleState ⟨0, 0, 1000, 800⟩ ⟨699, 0, 300, 400⟩ ⟨1, 1⟩)).effects
            = [Effect.setPosition 701 y, Effect.movementUpdate d]) := by
  intro h
  exact absurd h.1 (by decide)

/-- C5 (amended). Work area `(0,0,1000,800)`, window width 300 (any height),
position `(699,0)`, direction `(1,1)`, speed 2: one tick flips `dir.x` to `-1`
and commits `x = 700 = workArea.x + workArea.width - bounds.width`. -/
theorem C5_off_by_one_scenario (height : Int) :
    (tickCallback 2
        (visibleState ⟨0, 0, 1000, 800⟩ ⟨699, 0, 300, height⟩ ⟨1, 1⟩)).currentDirection.x
        = -1 ∧
      ∃ y d,
        (tickCallback 2 (visibleState ⟨0, 0, 1000, 800⟩ ⟨699, 0, 300, height⟩ ⟨1, 1⟩)).effects
          = [Effect.setPosition 700 y, Effect.movementUpdate d] := by
  simp [tickCallback, visibleState, mathRound]

/-- C6 (counterexample). Work area `(0,0,1000,800)`, window `300x400` at
`(-10,0)` (beyond the left edge), direction `(1,1)`, speed 2: the candidate
`x = -8` is still at or beyond the left edge, the tick negates `dir.x`, and the
direction after the tick is `-1`, pointing away from the interior. -/
theorem C6_inward_bounce_fails_when_heading_inward :
    (300 : Int) ≤ 1000 ∧ (400 : Int) ≤ 800 ∧ (0 : Int) < 2 ∧ (-10 : Int) ≤ 0 ∧
      (tickCallback 2 (visibleState ⟨0, 0, 1000, 800⟩ ⟨-10, 0, 300, 400⟩ ⟨1, 1⟩)).currentDirection.x
        = -1 ∧
      (tickCallback 2 (visibleState ⟨0, 0, 1000, 800⟩ ⟨-10, 0, 300, 400⟩ ⟨1, 1⟩)).currentDirection.x
        ≠ 1 := by
  decide

/-- C6 (amended). Inward bounce: for every positive speed, every unit
direction and every visible window whose position touches or crosses a
work-area boundary on an axis, after the very next tick the direction on that
axis points toward the interior (`+1` at or beyond the left/top edge, `-1` at
or beyond the right/bottom edge) exactly when, before the tick, the direction
on that axis pointed toward that boundary or the candidate position is
strictly inside the work area on that axis. -/
theorem C6_inward_bounce (speed : Int) (s : State) (w : BrowserWindow)
    (hw : s.mainWindow = some w) (hv : w.visible = true) (hspeed : 0 < speed)
    (hunit : unitDirection s.currentDirection) :
    (w.bounds.x ≤ s.workArea.x →
        ((tickCallback speed s).currentDirection.x = 1 ↔
          (s.currentDirection.x = -1 ∨
            (s.workArea.x < w.bounds.x + s.currentDirection.x * speed ∧
              w.bounds.x + s.currentDirection.x * speed + w.bounds.width
                < s.workArea.x + s.workArea.width)))) ∧
      (w.bounds.x + w.bounds.width ≥ s.workArea.x + s.workArea.width →
        ((tickCallback speed s).currentDirection.x = -1 ↔
          (s.currentDirection.x = 1 ∨
            (s.workArea.x < w.bounds.x + s.currentDirection.x * speed ∧
              w.bounds.x + s.currentDirection.x * speed + w.bounds.width
                < s.workArea.x + s.workArea.width)))) ∧
      (w.bounds.y ≤ s.workArea.y →
        ((tickCallback speed s).currentDirection.y = 1 ↔
          (s.currentDirection.y = -1 ∨
            (s.workArea.y < w.bounds.y + s.currentDirection.y * speed ∧
              w.bounds.y + s.currentDirection.y * speed + w.bounds.height
                < s.workArea.y + s.workArea.height)))) ∧
      (w.bounds.y + w.bounds.height ≥ s.workArea.y + s.workArea.height →
        ((tickCallback speed s).currentDirection.y = -1 ↔
          (s.currentDirection.y = 1 ∨
            (s.workArea.y < w.bounds.y + s.currentDirection.y * speed ∧
              w.bounds.y + s.currentDirection.y * speed + w.bounds.height
                < s.workArea.y + s.workArea.height)))) := by
  obtain ⟨hx, hy⟩ := hunit
  simp only [tickCallback, hw, hv, mathRound]
  refine ⟨?_, ?_, ?_, ?_⟩
  · intro hedge
    rcases hx with hx | hx <;> (simp [hx]; try omega)
  · intro hedge
    rcases hx with hx | hx <;> (simp [hx]; try omega)
  · intro hedge
    rcases hy with hy | hy <;> (simp [hy]; try omega)
  · intro hedge
    rcases hy with hy | hy <;> (simp [hy]; try omega)

/-- Witness for C6: window `300x400` at the top-left corner `(0,0)` of the work
area `(0,0,1000,800)` heading `(-1,-1)` with speed 2 leaves the tick with
direction `x = +1`. -/
theorem C6_inward_bounce_witness :
    (tickCallback 2 (visibleState ⟨0, 0, 1000, 800⟩ ⟨0, 0, 300, 400⟩ ⟨-1, -1⟩)).currentDirection.x
      = 1 :=
  ((C6_inward_bounce 2 (visibleState ⟨0, 0, 1000, 800⟩ ⟨0, 0, 300, 400⟩ ⟨-1, -1⟩)
    { visible := true, bounds := ⟨0, 0, 300, 400⟩ } rfl rfl (by decide)
    ⟨Or.inl rfl, Or.inl rfl⟩).1 (by decide)).mpr (Or.inl rfl)

/-! ## The invisible-window guard -/

/-- C9. Invisible-window guard: a tick in which the main window is absent or
not visible makes no `setPosition` call, sends no `movement-update` (the effect
trace is unchanged) and leaves `currentDirection` unchanged; indeed it leaves
the whole state unchanged. -/
theorem C9_invisible_window_guard (speed : Int) (s : State)
    (h : s.mainWindow = none ∨ ∃ w, s.mainWindow = some w ∧ w.visible = false) :
    (tickCallback speed s).effects = s.effects ∧
      (tickCallback speed s).currentDirection = s.currentDirection ∧
      tickCallback speed s = s := by
  have key : tickCallback speed s = s := by
    rcases h with h | ⟨w, hw, hv⟩
    · simp [tickCallback, h]
    · simp [tickCallback, hw, hv]
  rw [key]
  exact ⟨rfl, rfl, rfl⟩

/-- Witness for C9: a hidden window one step from the right edge. -/
theorem C9_invisible_window_guard_witness :
    (tickCallback 5
        { visibleState ⟨0, 0, 1000, 800⟩ ⟨698, 3, 300, 400⟩ ⟨1, -1⟩ with
          mainWindow := some { visible := false, bounds := ⟨698, 3, 300, 400⟩ } }).effects
        = [] ∧
      (tickCallback 5
        { visibleState ⟨0, 0, 1000, 800⟩ ⟨698, 3, 300, 400⟩ ⟨1, -1⟩ with
          mainWindow := some { visible := false, bounds := ⟨698, 3, 300, 400⟩ } }).currentDirection
        = ⟨1, -1⟩ ∧
      tickCallback 5
        { visibleState ⟨0, 0, 1000, 800⟩ ⟨698, 3, 300, 400⟩ ⟨1, -1⟩ with
          mainWindow := some { visible := false, bounds := ⟨698, 3, 300, 400⟩ } }
        = { visibleState ⟨0, 0, 1000, 800⟩ ⟨698, 3, 300, 400⟩ ⟨1, -1⟩ with
          mainWindow := some { visible := false, bounds := ⟨698, 3, 300, 400⟩ } } :=
  C9_invisible_window_guard 5
    { visibleState ⟨0, 0, 1000, 800⟩ ⟨698, 3, 300, 400⟩ ⟨1, -1⟩ with
      mainWindow := some { visible := false, bounds := ⟨698, 3, 300, 400⟩ } }
    (Or.inr ⟨{ visible := false, bounds := ⟨698, 3, 300, 400⟩ }, rfl, rfl⟩)

/-! ## Start, stop and the interval timer -/

theorem tickCallback_roamingInterval (speed : Int) (s : State) :
    (tickCallback speed s).roamingInterval = s.roamingInterval := by
  unfold tickCallback
  split
  · rfl
  · split <;> rfl

theorem tickCallback_timers (speed : Int) (s : State) :
    (tickCallback speed s).timers = s.timers := by
  unfold tickCallback
  split
  · rfl
  · split <;> rfl

theorem timersMatchHandle_step (s : State) (e : Event) (h : timersMatchHandle s) :
    timersMatchHandle (step s e) := by
  cases e with
  | startRoaming =>
    unfold timersMatchHandle at h
    simp only [step, startRoaming]
    cases hri : s.roamingInterval with
    | none =>
      rw [hri] at h
      simp [timersMatchHandle, h]
    | some k =>
      simpa [timersMatchHandle, hri] using h
  | stopRoaming =>
    unfold timersMatchHandle at h
    simp only [step, stopRoaming]
    cases hri : s.roamingInterval with
    | none =>
      simpa [timersMatchHandle, hri] using h
    | some k =>
      rw [hri] at h
      obtain ⟨v, hv⟩ := h
      simp [timersMatchHandle, hv]
  | tick k =>
    simp only [step, fire]
    split
    · unfold timersMatchHandle
      rw [tickCallback_roamingInterval, tickCallback_timers]
      exact h
    · exact h
  | setMainWindow w => exact h
  | setWorkArea wa => exact h
  | setRoamingSpeed v => exact h

theorem timersMatchHandle_run (events : List Event) (s : State)
    (h : timersMatchHandle s) : timersMatchHandle (run s events) := by
  induction events generalizing s with
  | nil => exact h
  | cons e rest ih => exact ih (step s e) (timersMatchHandle_step s e h)

theorem timersMatchHandle_initialState (workArea : Rectangle) :
    timersMatchHandle (initialState workArea) := by
  simp [timersMatchHandle, initialState]

/-- C7. Idempotent start/stop: `startRoaming` while an interval is active
leaves the state unchanged, so two starts in a row equal a single start;
`stopRoaming` while no interval is active changes nothing; `stopRoaming` after
`startRoaming` leaves no active interval. In every reachable state this means
that after one or two starts exactly one interval timer is registered, and
after a stop none is. -/
theorem C7_idempotent_start_stop (workArea : Rectangle) (events : List Event) (s : State) :
    (s.roamingInterval ≠ none → startRoaming s = s) ∧
      startRoaming (startRoaming s) = startRoaming s ∧
      (s.roamingInterval = none → stopRoaming s = s) ∧
      (stopRoaming (startRoaming s)).roamingInterval = none ∧
      (startRoaming (run (initialState workArea) events)).timers.length = 1 ∧
      (startRoaming (startRoaming (run (initialState workArea) events))).timers.length = 1 ∧
      (stopRoaming (startRoaming (run (initialState workArea) events))).timers = [] := by
  have hstart : ∀ t : State, timersMatchHandle t → (startRoaming t).timers.length = 1 := by
    intro t ht
    have h1 := timersMatchHandle_step t Event.startRoaming ht
    simp only [step] at h1
    unfold timersMatchHandle at h1
    cases hri : (startRoaming t).roamingInterval with
    | none =>
      exfalso
      revert hri
      unfold startRoaming
      cases hti : t.roamingInterval <;> simp [hti]
    | some k =>
      rw [hri] at h1
      obtain ⟨v, hv⟩ := h1
      simp [hv]
  have hidem : ∀ t : State, startRoaming (startRoaming t) = startRoaming t := by
    intro t
    unfold startRoaming
    cases hti : t.roamingInterval <;> simp [hti]
  have hreach := timersMatchHandle_run events (initialState workArea)
    (timersMatchHandle_initialState workArea)
  refine ⟨?_, hidem s, ?_, ?_, hstart _ hreach, ?_, ?_⟩
  · intro h
    unfold startRoaming
    cases hri : s.roamingInterval with
    | none => exact absurd hri h
    | some k => rfl
  · intro h
    simp [stopRoaming, h]
  · unfold stopRoaming startRoaming
    cases hri : s.roamingInterval <;> simp [hri]
  · rw [hidem]
    exact hstart _ hreach
  · have h1 := timersMatchHandle_step _ Event.stopRoaming
      (timersMatchHandle_step _ Event.startRoaming hreach)
    simp only [step] at h1
    unfold timersMatchHandle at h1
    have hnone : (stopRoaming (startRoaming (run (initialState workArea) events))).roamingInterval
        = none := by
      unfold stopRoaming startRoaming
      cases hri : (run (initialState workArea) events).roamingInterval <;> simp [hri]
    rw [hnone] at h1
    exact h1

/-- Witness for C7: from the initial state, a second `startRoaming` changes
nothing. -/
theorem C7_idempotent_start_stop_witness :
    startRoaming (startRoaming (initialState ⟨0, 0, 1000, 800⟩))
      = startRoaming (initialState ⟨0, 0, 1000, 800⟩) :=
  (C7_idempotent_start_stop ⟨0, 0, 1000, 800⟩ []
    (startRoaming (initialState ⟨0, 0, 1000, 800⟩))).1 (by decide)

/-- C8 (counterexample). With `roamingSpeed = -3` stored, `startRoaming` from
the initial state is not rejected: `roamingInterval` is set, a timer capturing
speed `-3` is registered, and its first tick on a visible window at `(100,100)`
moves the window by `-3` on each axis. -/
theorem C8_nonpositive_speed_is_not_rejected :
    (run (initialState ⟨0, 0, 1000, 800⟩)
        [Event.setRoamingSpeed (-3), Event.startRoaming]).roamingSpeed ≤ 0 ∧
      (run (initialState ⟨0, 0, 1000, 800⟩)
        [Event.setRoamingSpeed (-3), Event.startRoaming]).roamingInterval = some 1 ∧
      (run (initialState ⟨0, 0, 1000, 800⟩)
        [Event.setRoamingSpeed (-3), Event.startRoaming]).timers
        = [{ handle := 1, speed := -3 }] ∧
      (run (initialState ⟨0, 0, 1000, 800⟩)
        [Event.setRoamingSpeed (-3), Event.startRoaming,
         Event.setMainWindow (some { visible := true, bounds := ⟨100, 100, 300, 400⟩ }),
         Event.tick 1]).effects
        = [Effect.setPosition 97 97, Effect.movementUpdate ⟨1, 1⟩] := by
  decide

/-- C8 (amended). `startRoaming` does not validate the stored speed: in every
reachable state with no interval active and for every stored `roamingSpeed`
(positive, zero or negative), `startRoaming` sets `roamingInterval`, registers
exactly one tick timer capturing that speed, and a firing of that timer runs
the tick with that speed. -/
theorem C8_start_accepts_any_speed (workArea : Rectangle) (events : List Event) (s : State)
    (hs : s = run (initialState workArea) events) (hidle : s.roamingInterval = none) :
    (startRoaming s).roamingInterval = some s.nextHandle ∧
      (startRoaming s).timers = [{ handle := s.nextHandle, speed := s.roamingSpeed }] ∧
      fire s.nextHandle (startRoaming s) = tickCallback s.roamingSpeed (startRoaming s) := by
  have hreach : timersMatchHandle s := by
    rw [hs]
    exact timersMatchHandle_run events (initialState workArea)
      (timersMatchHandle_initialState workArea)
  unfold timersMatchHandle at hreach
  rw [hidle] at hreach
  have htimers : (startRoaming s).timers
      = [{ handle := s.nextHandle, speed := s.roamingSpeed }] := by
    simp [startRoaming, hidle, hreach]
  refine ⟨by simp [startRoaming, hidle], htimers, ?_⟩
  simp [fire, htimers]

/-- Witness for C8: speed `0` stored before the first start. -/
theorem C8_start_accepts_any_speed_witness :
    (startRoaming (run (initialState ⟨0, 0, 1000, 800⟩) [Event.setRoamingSpeed 0])).roamingInterval
        = some 1 ∧
      (startRoaming (run (initialState ⟨0, 0, 1000, 800⟩) [Event.setRoamingSpeed 0])).timers
        = [{ handle := 1, speed := 0 }] ∧
      fire 1 (startRoaming (run (initialState ⟨0, 0, 1000, 800⟩) [Event.setRoamingSpeed 0]))
        = tickCallback 0
            (startRoaming (run (initialState ⟨0, 0, 1000, 800⟩) [Event.setRoamingSpeed 0])) :=
  C8_start_accepts_any_speed ⟨0, 0, 1000, 800⟩ [Event.setRoamingSpeed 0]
    (run (initialState ⟨0, 0, 1000, 800⟩) [Event.setRoamingSpeed 0]) rfl rfl

/-! ## The direction invariant -/

theorem unitDirection_tickCallback (speed : Int) (s : State)
    (h : unitDirection s.currentDirection) :
    unitDirection (tickCallback speed s).currentDirection := by
  unfold unitDirection at h ⊢
  unfold tickCallback
  split
  · exact h
  · split
    · exact h
    · obtain ⟨hx, hy⟩ := h
      constructor
      · dsimp only
        split <;> omega
      · dsimp only
        split <;> omega

theorem unitDirection_step (s : State) (e : Event) (h : unitDirection s.currentDirection) :
    unitDirection (step s e).currentDirection := by
  cases e with
  | startRoaming =>
    simp only [step, startRoaming]
    split <;> exact h
  | stopRoaming =>
    simp only [step, stopRoaming]
    split <;> exact h
  | tick k =>
    simp only [step, fire]
    split
    · exact unitDirection_tickCallback _ s h
    · exact h
  | setMainWindow w => exact h
  | setWorkArea wa => exact h
  | setRoamingSpeed v => exact h

theorem unitDirection_run (events : List Event) (s : State)
    (h : unitDirection s.currentDirection) :
    unitDirection (run s events).currentDirection := by
  induction events generalizing s with
  | nil => exact h
  | cons e rest ih => exact ih (step s e) (unitDirection_step s e h)

/-- C10. Direction invariant: from the initial state (direction `(1,1)`), after
any sequence of ticks, `startRoaming` and `stopRoaming` calls and changes of
the window, the work area and the stored speed, each component of
`currentDirection` is `-1` or `+1`. -/
theorem C10_direction_invariant (workArea : Rectangle) (events : List Event) :
    ((run (initialState workArea) events).currentDirection.x = -1 ∨
        (run (initialState workArea) events).currentDirection.x = 1) ∧
      ((run (initialState workArea) events).currentDirection.y = -1 ∨
        (run (initialState workArea) events).currentDirection.y = 1) :=
  unitDirection_run events (initialState workArea) (by simp [unitDirection, initialState])

end Roaming

namespace Animation

/-! ## Frame lemmas for the state machine -/

theorem updateCharacterStatus_frame (state : String) (r : VRMRenderer) :
    (updateCharacterStatus state r).currentState = r.currentState ∧
      (updateCharacterStatus state r).timers = r.timers ∧
      (updateCharacterStatus state r).now = r.now ∧
      (updateCharacterStatus state r).movementTimeout = r.movementTimeout ∧
      (updateCharacterStatus state r).nextHandle = r.nextHandle := by
  unfold updateCharacterStatus
  split <;> simp

theorem setAnimationState_currentState (state : String) (r : VRMRenderer) :
    (setAnimationState state r).currentState = state := by
  unfold setAnimationState
  rw [(updateCharacterStatus_frame _ _).1]
  dsimp only
  split
  · split <;> rfl
  · rfl

theorem setAnimationState_timers (state : String) (r : VRMRenderer) :
    (setAnimationState state r).timers = r.timers := by
  unfold setAnimationState
  rw [(updateCharacterStatus_frame _ _).2.1]
  dsimp only
  split
  · split <;> rfl
  · rfl

theorem setAnimationState_now (state : String) (r : VRMRenderer) :
    (setAnimationState state r).now = r.now := by
  unfold setAnimationState
  rw [(updateCharacterStatus_frame _ _).2.2.1]
  dsimp only
  split
  · split <;> rfl
  · rfl

theorem setAnimationState_movementTimeout (state : String) (r : VRMRenderer) :
    (setAnimationState state r).movementTimeout = r.movementTimeout := by
  unfold setAnimationState
  rw [(updateCharacterStatus_frame _ _).2.2.2.1]
  dsimp only
  split
  · split <;> rfl
  · rfl

theorem setAnimationState_nextHandle (state : String) (r : VRMRenderer) :
    (setAnimationState state r).nextHandle = r.nextHandle := by
  unfold setAnimationState
  rw [(updateCharacterStatus_frame _ _).2.2.2.2]
  dsimp only
  split
  · split <;> rfl
  · rfl

theorem runCallback_eq (callback : Callback) (r : VRMRenderer) :
    runCallback callback r = setAnimationState animationStates.idle r := by
  cases callback <;> rfl

theorem foldl_runCallback_frame (l : List Timeout) (r : VRMRenderer) :
    (l.foldl (fun acc t => runCallback t.callback acc) r).timers = r.timers ∧
      (l.foldl (fun acc t => runCallback t.callback acc) r).movementTimeout
        = r.movementTimeout ∧
      (l.foldl (fun acc t => runCallback t.callback acc) r).nextHandle = r.nextHandle := by
  induction l generalizing r with
  | nil => exact ⟨rfl, rfl, rfl⟩
  | cons t rest ih =>
    simp only [List.foldl_cons]
    obtain ⟨h1, h2, h3⟩ := ih (runCallback t.callback r)
    rw [h1, h2, h3, runCallback_eq, setAnimationState_timers,
      setAnimationState_movementTimeout, setAnimationState_nextHandle]
    exact ⟨rfl, rfl, rfl⟩

theorem foldl_runCallback_currentState (l : List Timeout) (r : VRMRenderer) :
    (l.foldl (fun acc t => runCallback t.callback acc) r).currentState
      = if l = [] then r.currentState else animationStates.idle := by
  induction l generalizing r with
  | nil => rfl
  | cons t rest ih =>
    simp only [List.foldl_cons]
    rw [ih]
    by_cases hrest : rest = []
    · simp [hrest, runCallback_eq, setAnimationState_currentState]
    · simp [hrest]

theorem advance_now (dt : Nat) (r : VRMRenderer) : (advance dt r).now = r.now + dt := rfl

theorem advance_timers (dt : Nat) (r : VRMRenderer) :
    (advance dt r).timers = r.timers.filter (fun t => r.now + dt < t.due) := by
  unfold advance
  dsimp only
  rw [(foldl_runCallback_frame _ _).1]

theorem advance_movementTimeout (dt : Nat) (r : VRMRenderer) :
    (advance dt r).movementTimeout = r.movementTimeout := by
  unfold advance
  dsimp only
  rw [(foldl_runCallback_frame _ _).2.1]

theorem advance_currentState (dt : Nat) (r : VRMRenderer) :
    (advance dt r).currentState
      = if ∃ t ∈ r.timers, t.due ≤ r.now + dt then animationStates.idle
        else r.currentState := by
  unfold advance
  dsimp only
  rw [foldl_runCallback_currentState]
  have hiff : (List.insertionSort (fun a b : Timeout => a.due ≤ b.due)
      (r.timers.filter (fun t => decide (t.due ≤ r.now + dt))) = [])
        ↔ ¬ ∃ t ∈ r.timers, t.due ≤ r.now + dt := by
    rw [← List.length_eq_zero, List.length_insertionSort, List.length_eq_zero,
      List.filter_eq_nil_iff]
    simp
  by_cases h : ∃ t ∈ r.timers, t.due ≤ r.now + dt
  · rw [if_neg (fun hnil => (hiff.mp hnil) h), if_pos h]
  · rw [if_pos (hiff.mpr h), if_neg h]

end Animation

namespace Roaming

/-! ## Direction across stop and restart -/

theorem tickCallback_congr (speed : Int) (s t : State)
    (hw : t.mainWindow = s.mainWindow) (ha : t.workArea = s.workArea)
    (hd : t.currentDirection = s.currentDirection) (he : t.effects = s.effects) :
    (tickCallback speed t).currentDirection = (tickCallback speed s).currentDirection ∧
      (tickCallback speed t).effects = (tickCallback speed s).effects ∧
      (tickCallback speed t).mainWindow = (tickCallback speed s).mainWindow := by
  unfold tickCallback
  rw [hw]
  cases s.mainWindow with
  | none => exact ⟨hd, he, hw⟩
  | some w =>
    dsimp only
    by_cases hv : w.visible = false
    · simp only [hv, if_true]
      exact ⟨hd, he, hw⟩
    · simp only [hv, if_false, ha, hd, he]
      exact ⟨rfl, rfl, rfl⟩

theorem stopRoaming_frame (s : State) :
    (stopRoaming s).mainWindow = s.mainWindow ∧ (stopRoaming s).workArea = s.workArea ∧
      (stopRoaming s).currentDirection = s.currentDirection ∧
      (stopRoaming s).effects = s.effects ∧
      (stopRoaming s).roamingSpeed = s.roamingSpeed ∧
      (stopRoaming s).nextHandle = s.nextHandle ∧
      (stopRoaming s).roamingInterval = none := by
  unfold stopRoaming
  cases h : s.roamingInterval <;> simp [h]

theorem startRoaming_frame (s : State) :
    (startRoaming s).mainWindow = s.mainWindow ∧ (startRoaming s).workArea = s.workArea ∧
      (startRoaming s).currentDirection = s.currentDirection ∧
      (startRoaming s).effects = s.effects := by
  unfold startRoaming
  cases h : s.roamingInterval <;> simp

/-- C11. Stop preserves direction: `stopRoaming` leaves `currentDirection`
unchanged, `startRoaming` does not reset it, and a session started after a stop
takes its first tick with the direction the previous session ended with: in
every reachable state the timer installed by the restart runs the tick of the
stored speed, and that tick yields the direction and the window calls a tick
from the state before the stop would yield. -/
theorem C11_stop_preserves_direction (workArea : Rectangle) (events : List Event)
    (speed : Int) (s : State) :
    (stopRoaming s).currentDirection = s.currentDirection ∧
      (startRoaming s).currentDirection = s.currentDirection ∧
      (startRoaming (stopRoaming s)).currentDirection = s.currentDirection ∧
      (tickCallback speed (startRoaming (stopRoaming s))).currentDirection
        = (tickCallback speed s).currentDirection ∧
      (tickCallback speed (startRoaming (stopRoaming s))).effects
        = (tickCallback speed s).effects ∧
      fire (run (initialState workArea) events).nextHandle
          (startRoaming (stopRoaming (run (initialState workArea) events)))
        = tickCallback (run (initialState workArea) events).roamingSpeed
            (startRoaming (stopRoaming (run (initialState workArea) events))) := by
  obtain ⟨p1, p2, p3, p4, p5, p6, p7⟩ := stopRoaming_frame s
  obtain ⟨q1, q2, q3, q4⟩ := startRoaming_frame (stopRoaming s)
  have hc := tickCallback_congr speed s (startRoaming (stopRoaming s))
    (q1.trans p1) (q2.trans p2) (q3.trans p3) (q4.trans p4)
  refine ⟨p3, (startRoaming_frame s).2.2.1, q3.trans p3, hc.1, hc.2.1, ?_⟩
  have hreach := timersMatchHandle_step _ Event.stopRoaming
    (timersMatchHandle_run events (initialState workArea)
      (timersMatchHandle_initialState workArea))
  simp only [step] at hreach
  obtain ⟨_, _, _, _, r5, r6, r7⟩ := stopRoaming_frame (run (initialState workArea) events)
  unfold timersMatchHandle at hreach
  rw [r7] at hreach
  have htimers : (startRoaming (stopRoaming (run (initialState workArea) events))).timers
      = [{ handle := (run (initialState workArea) events).nextHandle,
           speed := (run (initialState workArea) events).roamingSpeed }] := by
    simp [startRoaming, r7, hreach, r5, r6]
  simp [fire, htimers]

end Roaming

namespace Animation

/-! ## The entry points -/

theorem onChatStart_frame (r : VRMRenderer) :
    (onChatStart r).currentState = animationStates.thinking ∧
      (onChatStart r).timers = r.timers ∧ (onChatStart r).now = r.now ∧
      (onChatStart r).movementTimeout = r.movementTimeout := by
  unfold onChatStart
  exact ⟨setAnimationState_currentState _ _, setAnimationState_timers _ _,
    setAnimationState_now _ _, setAnimationState_movementTimeout _ _⟩

theorem onChatResponse_frame (r : VRMRenderer) :
    (onChatResponse r).currentState = animationStates.talking ∧
      (onChatResponse r).timers
        = r.timers ++
            [{ handle := r.nextHandle, due := r.now + 2000,
               callback := Callback.talkingRevert }] ∧
      (onChatResponse r).now = r.now ∧
      (onChatResponse r).movementTimeout = r.movementTimeout := by
  unfold onChatResponse setTimeout
  simp only [setAnimationState_currentState, setAnimationState_timers, setAnimationState_now,
    setAnimationState_movementTimeout, setAnimationState_nextHandle]
  exact ⟨trivial, trivial, trivial, trivial⟩

theorem onMovementUpdate_frame (d : Roaming.Direction) (r : VRMRenderer) :
    (onMovementUpdate d r).currentState = animationStates.moving ∧
      (onMovementUpdate d r).timers
        = (clearTimeout r.movementTimeout r).timers ++
            [{ handle := r.nextHandle, due := r.now + 1000,
               callback := Callback.movementRevert }] ∧
      (onMovementUpdate d r).now = r.now ∧
      (onMovementUpdate d r).movementTimeout = some r.nextHandle := by
  unfold onMovementUpdate setTimeout clearTimeout
  simp only [setAnimationState_movementTimeout]
  cases r.movementTimeout <;>
    simp [setAnimationState_currentState, setAnimationState_timers, setAnimationState_now,
      setAnimationState_nextHandle]

/-! ## Movement signals while thinking -/

/-- C12 (counterexample). From a fresh renderer, `onChatStart` followed by
`onMovementUpdate` with no `onChatResponse` in between leaves the state
`moving`, not `thinking`. -/
theorem C12_movement_leaves_thinking :
    (run (construct none 0) [Event.onChatStart]).currentState = "thinking" ∧
      (run (construct none 0)
        [Event.onChatStart, Event.onMovementUpdate ⟨1, 1⟩]).currentState = "moving" ∧
      (run (construct none 0)
        [Event.onChatStart, Event.onMovementUpdate ⟨1, 1⟩]).currentState ≠ "thinking" := by
  decide

/-- C12 (amended). No precedence of thinking: `onChatStart` sets the state to
`thinking`, and in every run in which `onChatStart` has been called, whatever
happened since (in particular with no `onChatResponse` since), a call to
`onMovementUpdate` changes the current state to `moving`. -/
theorem C12_movement_overrides_thinking (r : VRMRenderer) (since : List Event)
    (d : Roaming.Direction) :
    (onChatStart r).currentState = animationStates.thinking ∧
      (onMovementUpdate d (onChatStart r)).currentState = animationStates.moving ∧
      (onMovementUpdate d (run (onChatStart r) since)).currentState
        = animationStates.moving :=
  ⟨(onChatStart_frame r).1, (onMovementUpdate_frame d _).1, (onMovementUpdate_frame d _).1⟩

/-! ## Pending timers -/

theorem filter_comm_timeouts (p q : Timeout → Bool) (l : List Timeout) :
    (l.filter p).filter q = (l.filter q).filter p := by
  rw [List.filter_filter, List.filter_filter]
  congr 1
  funext a
  exact Bool.and_comm _ _

theorem movementTimerTracked_filter (r r2 : VRMRenderer) (p : Timeout → Bool)
    (ht : r2.timers = r.timers.filter p) (hm : r2.movementTimeout = r.movementTimeout)
    (h : movementTimerTracked r) : movementTimerTracked r2 := by
  unfold movementTimerTracked movementTimers at *
  rw [ht, filter_comm_timeouts, hm]
  rcases h with h | ⟨t, h, hh⟩
  · left
    rw [h]
    rfl
  · rw [h]
    by_cases hp : p t = true
    · right
      exact ⟨t, by simp [hp], hh⟩
    · left
      simp [hp]

theorem movementTimerTracked_same (r r2 : VRMRenderer)
    (ht : r2.timers = r.timers) (hm : r2.movementTimeout = r.movementTimeout)
    (h : movementTimerTracked r) : movementTimerTracked r2 := by
  unfold movementTimerTracked movementTimers at *
  rw [ht, hm]
  exact h

theorem movementTimers_onMovementUpdate (d : Roaming.Direction) (r : VRMRenderer)
    (h : movementTimerTracked r) :
    movementTimers (onMovementUpdate d r)
      = [{ handle := r.nextHandle, due := r.now + 1000,
           callback := Callback.movementRevert }] := by
  obtain ⟨_, ht, _, _⟩ := onMovementUpdate_frame d r
  have hcleared : (clearTimeout r.movementTimeout r).timers.filter
      (fun t => t.callback == Callback.movementRevert) = [] := by
    unfold movementTimerTracked movementTimers at h
    unfold clearTimeout
    cases hmt : r.movementTimeout with
    | none =>
      rcases h with h | ⟨t, _, hh⟩
      · exact h
      · rw [hmt] at hh
        cases hh
    | some k =>
      dsimp only
      rw [filter_comm_timeouts]
      rcases h with h | ⟨t, h, hh⟩
      · rw [h]
        rfl
      · rw [h]
        rw [hmt] at hh
        cases hh
        simp
  unfold movementTimers
  rw [ht, List.filter_append, hcleared]
  rfl

theorem movementTimerTracked_onMovementUpdate (d : Roaming.Direction) (r : VRMRenderer)
    (h : movementTimerTracked r) : movementTimerTracked (onMovementUpdate d r) :=
  Or.inr ⟨_, movementTimers_onMovementUpdate d r h, (onMovementUpdate_frame d r).2.2.2⟩

theorem movementTimerTracked_step (r : VRMRenderer) (e : Event)
    (h : movementTimerTracked r) : movementTimerTracked (step r e) := by
  cases e with
  | onMovementUpdate d => exact movementTimerTracked_onMovementUpdate d r h
  | onChatStart =>
    exact movementTimerTracked_same r _ (onChatStart_frame r).2.1 (onChatStart_frame r).2.2.2 h
  | onChatResponse =>
    obtain ⟨_, ht, _, hm⟩ := onChatResponse_frame r
    unfold movementTimerTracked movementTimers at *
    simp only [step]
    rw [ht, hm, List.filter_append]
    simpa using h
  | advance dt =>
    exact movementTimerTracked_filter r _ _ (advance_timers dt r)
      (advance_movementTimeout dt r) h
  | useFallbackMode canvas =>
    refine movementTimerTracked_same r _ ?_ ?_ h <;>
      (simp only [step, useFallbackMode]; split <;> rfl)
  | setStatusElement e => exact movementTimerTracked_same r _ rfl rfl h

theorem movementTimerTracked_run (events : List Event) (r : VRMRenderer)
    (h : movementTimerTracked r) : movementTimerTracked (run r events) := by
  induction events generalizing r with
  | nil => exact h
  | cons e rest ih => exact ih (step r e) (movementTimerTracked_step r e h)

/-- C13 (counterexample). Two revert timers are pending after `onMovementUpdate`
followed by `onChatResponse`, and also after two `onChatResponse` calls:
`onChatResponse` cancels nothing before installing its timer. -/
theorem C13_two_pending_timers :
    (run (construct none 0)
        [Event.onMovementUpdate ⟨1, 1⟩, Event.onChatResponse]).timers.length = 2 ∧
      (run (construct none 0) [Event.onChatResponse, Event.onChatResponse]).timers.length
        = 2 := by
  decide

/-- C13 (amended). Single pending movement timer: in every state reachable
through any interleaving of `onMovementUpdate`, `onChatStart`,
`onChatResponse` and timer expiries, at most one movement revert timer is
pending, because `onMovementUpdate` cancels the previously pending movement
timer before installing its own, and `onChatStart` installs no timer and
cancels none. -/
theorem C13_single_pending_movement_timer (statusElement : Option String) (now : Nat)
    (events : List Event) (d : Roaming.Direction) :
    (movementTimers (run (construct statusElement now) events)).length ≤ 1 ∧
      movementTimers (onMovementUpdate d (run (construct statusElement now) events))
        = [{ handle := (run (construct statusElement now) events).nextHandle,
             due := (run (construct statusElement now) events).now + 1000,
             callback := Callback.movementRevert }] ∧
      (onChatStart (run (construct statusElement now) events)).timers
        = (run (construct statusElement now) events).timers := by
  have hreach : movementTimerTracked (run (construct statusElement now) events) :=
    movementTimerTracked_run events _ (Or.inl rfl)
  refine ⟨?_, movementTimers_onMovementUpdate d _ hreach, (onChatStart_frame _).2.1⟩
  rcases hreach with h | ⟨t, h, _⟩ <;> simp [h]

/-! ## Timing of the reverts -/

theorem movingSince_onMovementUpdate (d : Roaming.Direction) (r : VRMRenderer)
    (h : onlyMovementPending r) : movingSince (onMovementUpdate d r) := by
  obtain ⟨hs, ht, hn, hm⟩ := onMovementUpdate_frame d r
  have hcleared : (clearTimeout r.movementTimeout r).timers = [] := by
    unfold onlyMovementPending at h
    unfold clearTimeout
    cases hmt : r.movementTimeout with
    | none =>
      dsimp only
      rw [hmt] at h
      cases htl : r.timers with
      | nil => rfl
      | cons t rest =>
        have := h t (by simp [htl])
        cases this
    | some k =>
      dsimp only
      rw [hmt] at h
      rw [List.filter_eq_nil_iff]
      intro t htmem
      have := h t htmem
      cases this
      simp
  refine ⟨hs, r.nextHandle, ?_, hm⟩
  rw [ht, hcleared, hn]
  rfl

theorem advance_of_movingSince (g : Nat) (r : VRMRenderer) (h : movingSince r)
    (hg : g < 1000) :
    (advance g r).currentState = animationStates.moving ∧ (advance g r).timers = r.timers ∧
      onlyMovementPending (advance g r) := by
  obtain ⟨hs, k, ht, hm⟩ := h
  have htimers : (advance g r).timers = r.timers := by
    rw [advance_timers, ht]
    simp [hg]
  refine ⟨?_, htimers, ?_⟩
  · rw [advance_currentState, ht]
    simp [hs]
    omega
  · unfold onlyMovementPending
    rw [htimers, advance_movementTimeout, ht, hm]
    simp

theorem movingSince_foldl (d : Roaming.Direction) (gaps : List Nat) (r : VRMRenderer)
    (h : movingSince r) (hgaps : ∀ g ∈ gaps, g < 1000) :
    movingSince (gaps.foldl (fun acc g => onMovementUpdate d (advance g acc)) r) := by
  induction gaps generalizing r with
  | nil => exact h
  | cons g rest ih =>
    simp only [List.foldl_cons]
    apply ih
    · exact movingSince_onMovementUpdate d _
        (advance_of_movingSince g r h (hgaps g (by simp))).2.2
    · intro x hx
      exact hgaps x (by simp [hx])

theorem advance_after_movingSince (dt : Nat) (r : VRMRenderer) (h : movingSince r) :
    (advance dt r).currentState
      = if dt < 1000 then animationStates.moving else animationStates.idle := by
  obtain ⟨hs, k, ht, _⟩ := h
  rw [advance_currentState, ht, hs]
  by_cases hdt : dt < 1000
  · simp [hdt]
  · simp [hdt]

/-- C14 (counterexample). A chat response at time 0 and a single movement
signal at time 1500, with no other call: the state is `moving` after the
signal, and 500 ms later, less than 1000 ms after the last (and only) signal,
the talking timer of the response has fired and the state is `idle`. -/
theorem C14_stale_talking_timer_ends_moving :
    (movementBurst ⟨1, 1⟩ []
        (run (construct none 0) [Event.onChatResponse, Event.advance 1500])).currentState
        = "moving" ∧
      (advance 500
        (movementBurst ⟨1, 1⟩ []
          (run (construct none 0) [Event.onChatResponse, Event.advance 1500]))).currentState
        = "idle" := by
  decide

/-- C14 (amended). Movement revert timing: for every burst of
`onMovementUpdate` calls in which consecutive calls are less than 1000 ms
apart, made while no revert timer other than the movement timer is pending and
with no other event, the state is `moving` at every instant less than 1000 ms
after the last call and `idle` from 1000 ms after the last call on. (Every
initial part of a burst is a burst, so the state is `moving` from the first
call on.) -/
theorem C14_movement_revert_timing (d : Roaming.Direction) (gaps : List Nat) (dt : Nat)
    (r : VRMRenderer) (hquiet : onlyMovementPending r) (hgaps : ∀ g ∈ gaps, g < 1000) :
    (advance dt (movementBurst d gaps r)).currentState
      = if dt < 1000 then animationStates.moving else animationStates.idle :=
  advance_after_movingSince dt _
    (movingSince_foldl d gaps _ (movingSince_onMovementUpdate d r hquiet) hgaps)

/-- Witness for C14: three signals 400 ms and 900 ms apart, sampled 999 ms
after the last one. -/
theorem C14_movement_revert_timing_witness :
    (advance 999 (movementBurst ⟨1, 1⟩ [400, 900] (construct none 0))).currentState
      = if 999 < 1000 then animationStates.moving else animationStates.idle :=
  C14_movement_revert_timing ⟨1, 1⟩ [400, 900] 999 (construct none 0)
    (by intro t ht; cases ht) (by decide)

/-- C15 (counterexample). A movement signal at time 0 and `onChatStart` at time
500: the state is `thinking` after the call, and 500 ms later, with no entry
point called, the movement timer has expired and the state is `idle`. -/
theorem C15_thinking_ended_by_movement_timer :
    (run (construct none 0)
        [Event.onMovementUpdate ⟨1, 1⟩, Event.advance 500, Event.onChatStart]).currentState
        = "thinking" ∧
      (run (construct none 0)
        [Event.onMovementUpdate ⟨1, 1⟩, Event.advance 500, Event.onChatStart,
         Event.advance 500]).currentState = "idle" := by
  decide

/-- C15 (amended). Thinking is held until a pending timer expires: for every
prior history, after `onChatStart` the state is `thinking`, and while no
further entry point is called it remains `thinking` at every later instant up
to the first expiry of a revert timer that was pending at the call, from which
instant on it is `idle`; with no timer pending it remains `thinking` at every
later instant. -/
theorem C15_thinking_held_until_timer (r : VRMRenderer) (dt : Nat) :
    (onChatStart r).currentState = animationStates.thinking ∧
      (advance dt (onChatStart r)).currentState
        = if ∃ t ∈ r.timers, t.due ≤ r.now + dt then animationStates.idle
          else animationStates.thinking := by
  obtain ⟨hs, ht, hn, _⟩ := onChatStart_frame r
  refine ⟨hs, ?_⟩
  rw [advance_currentState, ht, hn, hs]

/-- C16 (counterexample). A movement signal at time 0 and `onChatResponse` at
time 500: the state is `talking` after the call, and 500 ms later (1000 ms
after the movement signal, 500 ms after the response) the movement timer has
fired and the state is `idle`. -/
theorem C16_stale_movement_timer_fires :
    (run (construct none 0)
        [Event.onMovementUpdate ⟨1, 1⟩, Event.advance 500,
         Event.onChatResponse]).currentState = "talking" ∧
      (run (construct none 0)
        [Event.onMovementUpdate ⟨1, 1⟩, Event.advance 500, Event.onChatResponse,
         Event.advance 500]).currentState = "idle" := by
  decide

/-- C16 (amended). Chat-response during a movement countdown: if
`onChatResponse` is called `g < 1000` ms after a movement signal, with only
that movement countdown pending, the state becomes `talking` immediately; the
movement timer is not cancelled, so with no further events the state stays
`talking` until 1000 ms after the movement signal and is `idle` from then
on. -/
theorem C16_chat_response_during_movement (d : Roaming.Direction) (g dt : Nat)
    (r : VRMRenderer) (hquiet : onlyMovementPending r) (hg : g < 1000) :
    (onChatResponse (advance g (onMovementUpdate d r))).currentState
        = animationStates.talking ∧
      (advance dt (onChatResponse (advance g (onMovementUpdate d r)))).currentState
        = if g + dt < 1000 then animationStates.talking else animationStates.idle := by
  have hmoving := movingSince_onMovementUpdate d r hquiet
  obtain ⟨_, htimers, _⟩ := advance_of_movingSince g _ hmoving hg
  obtain ⟨_, k, ht, _⟩ := hmoving
  obtain ⟨hs, hct, hn, _⟩ := onChatResponse_frame (advance g (onMovementUpdate d r))
  refine ⟨hs, ?_⟩
  rw [advance_currentState, hct, htimers, ht, hn, hs, advance_now]
  by_cases hdt : g + dt < 1000
  · simp [hdt]
    omega
  · simp [hdt]
    omega

/-- Witness for C16: response 500 ms after the movement signal, sampled 499 ms
later. -/
theorem C16_chat_response_during_movement_witness :
    (onChatResponse (advance 500 (onMovementUpdate ⟨1, 1⟩ (construct none 0)))).currentState
        = animationStates.talking ∧
      (advance 499
        (onChatResponse (advance 500 (onMovementUpdate ⟨1, 1⟩ (construct none 0))))).currentState
        = if 500 + 499 < 1000 then animationStates.talking else animationStates.idle :=
  C16_chat_response_during_movement ⟨1, 1⟩ 500 499 (construct none 0)
    (by intro t ht; cases ht) (by decide)

/-- C17. Talking revert: from any state with no revert timer pending,
`onChatResponse` sets the state to `talking`, and with no further events the
state is `talking` at every instant less than 2000 ms after the call and
`idle` from 2000 ms on. -/
theorem C17_talking_revert (r : VRMRenderer) (dt : Nat) (hnone : r.timers = []) :
    (onChatResponse r).currentState = animationStates.talking ∧
      (advance dt (onChatResponse r)).currentState
        = if dt < 2000 then animationStates.talking else animationStates.idle := by
  obtain ⟨hs, ht, hn, _⟩ := onChatResponse_frame r
  refine ⟨hs, ?_⟩
  rw [advance_currentState, ht, hnone, hn, hs]
  by_cases hdt : dt < 2000
  · simp [hdt]
  · simp [hdt]

/-- Witness for C17: a fresh renderer, sampled 2000 ms after the response. -/
theorem C17_talking_revert_witness :
    (onChatResponse (construct none 0)).currentState = animationStates.talking ∧
      (advance 2000 (onChatResponse (construct none 0))).currentState
        = if 2000 < 2000 then animationStates.talking else animationStates.idle :=
  C17_talking_revert (construct none 0) 2000 rfl

/-! ## Invariants of the reachable states -/

theorem revertPending_step (r : VRMRenderer) (e : Event) (h : revertPending r) :
    revertPending (step r e) := by
  obtain ⟨hdue, hmov, htalk⟩ := h
  cases e with
  | onMovementUpdate d =>
    obtain ⟨hs, ht, hn, _⟩ := onMovementUpdate_frame d r
    simp only [step]
    refine ⟨?_, ?_, ?_⟩
    · intro t htm
      rw [ht] at htm
      rw [hn]
      rcases List.mem_append.mp htm with hin | hin
      · apply hdue
        unfold clearTimeout at hin
        cases hmt : r.movementTimeout with
        | none =>
          rw [hmt] at hin
          exact hin
        | some k =>
          rw [hmt] at hin
          exact (List.mem_filter.mp hin).1
      · simp at hin
        rw [hin]
        simp
    · intro _
      refine ⟨{ handle := r.nextHandle, due := r.now + 1000,
                callback := Callback.movementRevert }, ?_, rfl⟩
      rw [ht]
      simp
    · intro hst
      rw [hs] at hst
      exact absurd hst (by decide)
  | onChatStart =>
    obtain ⟨hs, ht, hn, _⟩ := onChatStart_frame r
    simp only [step]
    refine ⟨?_, ?_, ?_⟩
    · rw [ht, hn]
      exact hdue
    · intro hst
      rw [hs] at hst
      exact absurd hst (by decide)
    · intro hst
      rw [hs] at hst
      exact absurd hst (by decide)
  | onChatResponse =>
    obtain ⟨hs, ht, hn, _⟩ := onChatResponse_frame r
    simp only [step]
    refine ⟨?_, ?_, ?_⟩
    · intro t htm
      rw [ht] at htm
      rw [hn]
      rcases List.mem_append.mp htm with hin | hin
      · exact hdue t hin
      · simp at hin
        rw [hin]
        simp
    · intro hst
      rw [hs] at hst
      exact absurd hst (by decide)
    · intro _
      refine ⟨{ handle := r.nextHandle, due := r.now + 2000,
                callback := Callback.talkingRevert }, ?_, rfl⟩
      rw [ht]
      simp
  | advance dt =>
    simp only [step]
    have hkeep : (¬ ∃ t ∈ r.timers, t.due ≤ r.now + dt) →
        ∀ t ∈ r.timers, t ∈ (advance dt r).timers := by
      intro hno t htm
      rw [advance_timers]
      refine List.mem_filter.mpr ⟨htm, ?_⟩
      have : ¬ t.due ≤ r.now + dt := fun hle => hno ⟨t, htm, hle⟩
      simp
      omega
    refine ⟨?_, ?_, ?_⟩
    · intro t htm
      rw [advance_timers] at htm
      have := (List.mem_filter.mp htm).2
      rw [advance_now]
      simpa using this
    · intro hst
      rw [advance_currentState] at hst
      by_cases hfire : ∃ t ∈ r.timers, t.due ≤ r.now + dt
      · rw [if_pos hfire] at hst
        exact absurd hst (by decide)
      · rw [if_neg hfire] at hst
        obtain ⟨t, htm, hk⟩ := hmov hst
        exact ⟨t, hkeep hfire t htm, hk⟩
    · intro hst
      rw [advance_currentState] at hst
      by_cases hfire : ∃ t ∈ r.timers, t.due ≤ r.now + dt
      · rw [if_pos hfire] at hst
        exact absurd hst (by decide)
      · rw [if_neg hfire] at hst
        obtain ⟨t, htm, hk⟩ := htalk hst
        exact ⟨t, hkeep hfire t htm, hk⟩
  | useFallbackMode canvas =>
    have hsame : (useFallbackMode canvas r).timers = r.timers ∧
        (useFallbackMode canvas r).now = r.now ∧
        (useFallbackMode canvas r).currentState = r.currentState := by
      unfold useFallbackMode
      split <;> exact ⟨rfl, rfl, rfl⟩
    simp only [step]
    unfold revertPending
    rw [hsame.1, hsame.2.1, hsame.2.2]
    exact ⟨hdue, hmov, htalk⟩
  | setStatusElement e => exact ⟨hdue, hmov, htalk⟩

theorem revertPending_run (events : List Event) (r : VRMRenderer) (h : revertPending r) :
    revertPending (run r events) := by
  induction events generalizing r with
  | nil => exact h
  | cons e rest ih => exact ih (step r e) (revertPending_step r e h)

theorem revertPending_construct (statusElement : Option String) (now : Nat) :
    revertPending (construct statusElement now) := by
  refine ⟨?_, ?_, ?_⟩
  · intro t ht
    cases ht
  · intro h
    have h2 : animationStates.idle = animationStates.moving := h
    exact absurd h2 (by decide)
  · intro h
    have h2 : animationStates.idle = animationStates.talking := h
    exact absurd h2 (by decide)

/-- C18. Non-idle states carry a timer: in every state reachable through
`onMovementUpdate`, `onChatStart`, `onChatResponse` and timer expiries,
whenever the current state is `moving` (respectively `talking`) a movement
(respectively talking) timer is pending, due in the future, and with no further
events the state is `idle` once that timer is due. -/
theorem C18_non_idle_states_carry_timer (statusElement : Option String) (now : Nat)
    (events : List Event) :
    ((run (construct statusElement now) events).currentState = animationStates.moving →
        ∃ t ∈ (run (construct statusElement now) events).timers,
          t.callback = Callback.movementRevert ∧
          (run (construct statusElement now) events).now < t.due ∧
          (advance (t.due - (run (construct statusElement now) events).now)
            (run (construct statusElement now) events)).currentState
              = animationStates.idle) ∧
      ((run (construct statusElement now) events).currentState = animationStates.talking →
        ∃ t ∈ (run (construct statusElement now) events).timers,
          t.callback = Callback.talkingRevert ∧
          (run (construct statusElement now) events).now < t.due ∧
          (advance (t.due - (run (construct statusElement now) events).now)
            (run (construct statusElement now) events)).currentState
              = animationStates.idle) := by
  obtain ⟨hdue, hmov, htalk⟩ :=
    revertPending_run events _ (revertPending_construct statusElement now)
  have hrevert : ∀ t ∈ (run (construct statusElement now) events).timers,
      (advance (t.due - (run (construct statusElement now) events).now)
        (run (construct statusElement now) events)).currentState = animationStates.idle := by
    intro t htm
    rw [advance_currentState, if_pos]
    exact ⟨t, htm, by omega⟩
  constructor
  · intro hst
    obtain ⟨t, htm, hk⟩ := hmov hst
    exact ⟨t, htm, hk, hdue t htm, hrevert t htm⟩
  · intro hst
    obtain ⟨t, htm, hk⟩ := htalk hst
    exact ⟨t, htm, hk, hdue t htm, hrevert t htm⟩

/-- Witness for C18: 1500 ms after a chat response the state is `talking` and
its timer is pending. -/
theorem C18_non_idle_states_carry_timer_witness :
    ∃ t ∈ (run (construct none 0) [Event.onChatResponse, Event.advance 1500]).timers,
      t.callback = Callback.talkingRevert ∧
      (run (construct none 0) [Event.onChatResponse, Event.advance 1500]).now < t.due ∧
      (advance (t.due - (run (construct none 0) [Event.onChatResponse, Event.advance 1500]).now)
        (run (construct none 0) [Event.onChatResponse, Event.advance 1500])).currentState
          = animationStates.idle :=
  (C18_non_idle_states_carry_timer none 0 [Event.onChatResponse, Event.advance 1500]).2
    (by decide)

theorem currentState_step (r : VRMRenderer) (e : Event)
    (h : r.currentState ∈ animationStateValues) :
    (step r e).currentState ∈ animationStateValues := by
  cases e with
  | onMovementUpdate d =>
    simp only [step]
    rw [(onMovementUpdate_frame d r).1]
    decide
  | onChatStart =>
    simp only [step]
    rw [(onChatStart_frame r).1]
    decide
  | onChatResponse =>
    simp only [step]
    rw [(onChatResponse_frame r).1]
    decide
  | advance dt =>
    simp only [step]
    rw [advance_currentState]
    split
    · decide
    · exact h
  | useFallbackMode canvas =>
    simp only [step, useFallbackMode]
    split <;> exact h
  | setStatusElement e => exact h

theorem currentState_run (events : List Event) (r : VRMRenderer)
    (h : r.currentState ∈ animationStateValues) :
    (run r events).currentState ∈ animationStateValues := by
  induction events generalizing r with
  | nil => exact h
  | cons e rest ih => exact ih (step r e) (currentState_step r e h)

/-- C19. State exclusivity: `currentState` is `idle` when the renderer is
constructed, and in every state reachable through `onMovementUpdate`,
`onChatStart`, `onChatResponse` and timer expiries the current state is one of
the five values `idle`, `talking`, `thinking`, `happy`, `moving`, which are
pairwise distinct. -/
theorem C19_state_exclusivity (statusElement : Option String) (now : Nat)
    (events : List Event) :
    (construct statusElement now).currentState = "idle" ∧
      (run (construct statusElement now) events).currentState
        ∈ ["idle", "talking", "thinking", "happy", "moving"] ∧
      animationStateValues = ["idle", "talking", "thinking", "happy", "moving"] ∧
      animationStateValues.Nodup :=
  ⟨rfl, currentState_run events _ (by show animationStates.idle ∈ animationStateValues; decide),
    rfl, by decide⟩

/-! ## The status label -/

theorem setAnimationState_statusElement (state : String) (r : VRMRenderer) :
    (setAnimationState state r).statusElement
      = r.statusElement.map (fun _ => (statusMap.lookup state).getD "Ready") := by
  have hstatus : ∀ t : VRMRenderer, (updateCharacterStatus state t).statusElement
      = t.statusElement.map (fun _ => (statusMap.lookup state).getD "Ready") := by
    intro t
    unfold updateCharacterStatus
    cases h : t.statusElement <;> simp [h]
  unfold setAnimationState
  rw [hstatus]
  congr 1
  dsimp only
  split
  · split <;> rfl
  · rfl

/-- C20. Status label: for each of the five states `s`, `setAnimationState(s)`
sets the text of the status element (when the document has one) to the value
of the fixed mapping `idle -> "Ready"`, `moving -> "Moving"`, `thinking ->
"Thinking"`, `talking -> "Talking"`, `happy -> "Happy"`, whatever the renderer
state and the previous text. -/
theorem C20_status_label (s : String) (hs : s ∈ animationStateValues) (r : VRMRenderer) :
    (setAnimationState s r).statusElement
      = r.statusElement.map (fun _ => specStatusLabel s) := by
  rw [setAnimationState_statusElement]
  simp only [animationStateValues, List.mem_cons, List.mem_singleton, List.not_mem_nil,
    or_false] at hs
  rcases hs with h | h | h | h | h <;> (subst h; rfl)

/-- Witness for C20: `moving` on a renderer whose status element reads
`"VRM File Loaded!"`. -/
theorem C20_status_label_witness :
    (setAnimationState "moving"
        (construct (some "VRM File Loaded!") 0)).statusElement = some "Moving" :=
  C20_status_label "moving" (by decide) (construct (some "VRM File Loaded!") 0)

end Animation

namespace Animation

/-! ## The fallback class list and the movement transition -/

/-- C21 (the code at the failing input). In fallback mode, whatever the previous
class list, `setAnimationState` leaves the character element with the classes
`dog-character` and the state name for `talking`, `thinking`, `happy` and
`moving`, but with `dog-character` alone for `idle`: the class `idle`, for
which the stylesheet of `createCSSCharacter` has a rule, is never added. -/
theorem C21_idle_class_never_added (r : VRMRenderer) (classes : List String) :
    (setAnimationState "idle"
        { r with fallbackMode := true, characterElement := some classes }).characterElement
        = some ["dog-character"] ∧
      "idle" ∉ ["dog-character"] ∧ "idle" ∈ styledStateClasses ∧
      (setAnimationState "talking"
        { r with fallbackMode := true, characterElement := some classes }).characterElement
        = some ["dog-character", "talking"] ∧
      (setAnimationState "thinking"
        { r with fallbackMode := true, characterElement := some classes }).characterElement
        = some ["dog-character", "thinking"] ∧
      (setAnimationState "happy"
        { r with fallbackMode := true, characterElement := some classes }).characterElement
        = some ["dog-character", "happy"] ∧
      (setAnimationState "moving"
        { r with fallbackMode := true, characterElement := some classes }).characterElement
        = some ["dog-character", "moving"] := by
  have hstatus : ∀ (state : String) (t : VRMRenderer),
      (updateCharacterStatus state t).characterElement = t.characterElement := by
    intro state t
    unfold updateCharacterStatus
    split <;> rfl
  refine ⟨?_, by decide, by decide, ?_, ?_, ?_, ?_⟩ <;>
    (unfold setAnimationState
     rw [hstatus]
     rfl)

/-- C24. Movement transition: for every renderer state, whatever its current
state (`idle`, `moving`, `thinking`, `talking`, `happy` or any other value),
and every direction argument, `onMovementUpdate` sets the current state to
`moving`. -/
theorem C24_movement_transition (d : Roaming.Direction) (r : VRMRenderer) :
    (onMovementUpdate d r).currentState = "moving" :=
  (onMovementUpdate_frame d r).1

end Animation

namespace Chat

/-! ## Slices of the chat history -/

theorem jsSlice_neg {α : Type} (l : List α) (n : Nat) (hn : 0 < n) :
    jsSlice l (-(n : Int)) = l.drop (l.length - n) := by
  unfold jsSlice
  have hneg : (-(n : Int)) < 0 := by omega
  simp only [hneg, if_true]
  congr 1
  omega

theorem lastElements_eq_drop {α : Type} (n : Nat) (l : List α) :
    lastElements n l = l.drop (l.length - n) := by
  unfold lastElements
  rw [List.take_reverse, List.reverse_reverse]

theorem limitMessages_frame (c : ChatManager) :
    (limitMessages c).effects = c.effects ∧ (limitMessages c).vrmRenderer = c.vrmRenderer ∧
      (limitMessages c).isTyping = c.isTyping ∧ (limitMessages c).apiKey = c.apiKey ∧
      (limitMessages c).maxMessages = c.maxMessages ∧
      (limitMessages c).systemPrompt = c.systemPrompt ∧
      (limitMessages c).chatInput = c.chatInput := by
  unfold limitMessages
  dsimp only
  split <;> split <;> exact ⟨rfl, rfl, rfl, rfl, rfl, rfl, rfl⟩

theorem limitMessages_chatHistory (c : ChatManager) (hm : 0 < c.maxMessages) :
    (limitMessages c).chatHistory
      = if c.chatHistory.length ≤ c.maxMessages then c.chatHistory
        else c.chatHistory.drop (c.chatHistory.length - c.maxMessages) := by
  unfold limitMessages
  dsimp only
  by_cases hui : c.chatMessages.length > c.maxMessages
  · simp only [hui, if_true]
    by_cases hh : c.chatHistory.length > c.maxMessages
    · simp only [hh, if_true]
      rw [if_neg (by omega), jsSlice_neg _ _ hm]
    · simp only [hh, if_false]
      rw [if_pos (by omega)]
  · simp only [hui, if_false]
    by_cases hh : c.chatHistory.length > c.maxMessages
    · simp only [hh, if_true]
      rw [if_neg (by omega), jsSlice_neg _ _ hm]
    · simp only [hh, if_false]
      rw [if_pos (by omega)]

/-- C25. Oldest evicted first: for every chat history `h` and every
`maxMessages = m > 0`, `limitMessages` leaves `h` unchanged when
`length(h) <= m` and otherwise replaces it by the last `m` elements of `h` in
their original order. -/
theorem C25_oldest_evicted_first (c : ChatManager) (hm : 0 < c.maxMessages) :
    (limitMessages c).chatHistory
      = if c.chatHistory.length ≤ c.maxMessages then c.chatHistory
        else lastElements c.maxMessages c.chatHistory := by
  rw [limitMessages_chatHistory c hm, lastElements_eq_drop]

/-- Witness for C25: three messages and `maxMessages = 2`; the oldest one is
evicted. -/
theorem C25_oldest_evicted_first_witness :
    (limitMessages
        { construct "P" true with
          maxMessages := 2
          chatHistory := [⟨"user", "a"⟩, ⟨"assistant", "b"⟩, ⟨"user", "c"⟩] }).chatHistory
      = if 3 ≤ 2 then [⟨"user", "a"⟩, ⟨"assistant", "b"⟩, ⟨"user", "c"⟩]
        else lastElements 2 [⟨"user", "a"⟩, ⟨"assistant", "b"⟩, ⟨"user", "c"⟩] :=
  C25_oldest_evicted_first
    { construct "P" true with
      maxMessages := 2
      chatHistory := [⟨"user", "a"⟩, ⟨"assistant", "b"⟩, ⟨"user", "c"⟩] }
    (by decide)

/-- C26. Request context window: for every chat history `h`, the `messages`
list sent by `sendToAI` has length `min(length(h), 10) + 1`, its first element
is the system message carrying `systemPrompt`, the remaining elements are the
last `min(length(h), 10)` elements of `h` in their original order, and
`sendToAI` does not modify `chatHistory`, whatever the outcome of the
request. -/
theorem C26_request_context_window (outcome : FetchOutcome) (c : ChatManager) :
    (sendToAI outcome c).1.effects = c.effects ++ [Effect.fetch (requestMessages c)] ∧
      (requestMessages c).length = min c.chatHistory.length 10 + 1 ∧
      (requestMessages c).head? = some { role := "system", content := c.systemPrompt } ∧
      (requestMessages c).tail
        = lastElements (min c.chatHistory.length 10) c.chatHistory ∧
      (sendToAI outcome c).1.chatHistory = c.chatHistory := by
  have hslice : jsSlice c.chatHistory (-10) = c.chatHistory.drop (c.chatHistory.length - 10) :=
    jsSlice_neg c.chatHistory 10 (by decide)
  refine ⟨?_, ?_, ?_, ?_, ?_⟩
  · unfold sendToAI
    cases outcome <;> rfl
  · unfold requestMessages
    rw [hslice]
    simp only [List.length_append, List.length_singleton, List.length_drop]
    omega
  · rfl
  · unfold requestMessages
    rw [hslice, lastElements_eq_drop]
    simp only [List.singleton_append, List.tail_cons]
    congr 1
    omega
  · unfold sendToAI
    cases outcome <;> rfl

/-! ## The signals of a send -/

theorem addMessageToUI_frame (m : Message) (c : ChatManager) :
    (addMessageToUI m c).effects = c.effects ∧
      (addMessageToUI m c).vrmRenderer = c.vrmRenderer ∧
      (addMessageToUI m c).maxMessages = c.maxMessages := by
  unfold addMessageToUI
  obtain ⟨h1, h2, _, _, h5, _, _⟩ :=
    limitMessages_frame { c with chatMessages := c.chatMessages ++ [m] }
  exact ⟨h1, h2, h5⟩

/-- C23 (counterexample). With no renderer registered in `window.vrmRenderer`, a
send that passes the three guards and whose request succeeds (the history
holds the user message and the answer afterwards) dispatches the request but
raises no `onChatStart` and no `onChatResponse`. -/
theorem C23_no_signal_without_renderer :
    (run (construct "P" false)
        [Event.loadSettings "k", Event.sendMessage "hi" (FetchOutcome.ok "woof")]).chatHistory
        = [⟨"user", "hi"⟩, ⟨"assistant", "woof"⟩] ∧
      (run (construct "P" false)
        [Event.loadSettings "k", Event.sendMessage "hi" (FetchOutcome.ok "woof")]).effects
        = [Effect.fetch [⟨"system", "P"⟩, ⟨"user", "hi"⟩]] ∧
      Effect.onChatStart ∉
        (run (construct "P" false)
          [Event.loadSettings "k", Event.sendMessage "hi" (FetchOutcome.ok "woof")]).effects := by
  decide

/-- C23 (amended). Chat signals: for every `sendMessage` call that passes its
guards (non-blank input, not typing, API key set) while a renderer is
registered in `window.vrmRenderer`, the call completes without an error,
`isTyping` is false afterwards, and the calls it adds to the trace are
`onChatStart`, then the request, then `onChatResponse` exactly when `sendToAI`
returns a response; when `sendToAI` throws, the added calls are `onChatStart`
and the request only. -/
theorem C23_chat_signals (outcome : FetchOutcome) (c : ChatManager)
    (hinput : jsTrim c.chatInput ≠ "") (htyping : c.isTyping = false)
    (hkey : c.apiKey ≠ "") (hrenderer : c.vrmRenderer = true) :
    ∃ c2 messages,
      sendMessage outcome c = Except.ok c2 ∧ c2.isTyping = false ∧
        c2.effects
          = c.effects ++ [Effect.onChatStart, Effect.fetch messages] ++
              (match (sendToAI outcome c).2 with
                | Except.ok _ => [Effect.onChatResponse]
                | Except.error _ => []) := by
  have hE : ∀ m x, (addMessageToUI m x).effects = x.effects :=
    fun m x => (addMessageToUI_frame m x).1
  have hR : ∀ m x, (addMessageToUI m x).vrmRenderer = x.vrmRenderer :=
    fun m x => (addMessageToUI_frame m x).2.1
  unfold sendMessage
  simp only [hinput, htyping, hkey, Bool.false_eq_true, or_self, if_false]
  cases outcome <;>
    simp [sendMessageTry, sendToAI, setTyping, hE, hR, hrenderer]

/-- Witness for C23: a first message `hi` whose request is answered with an
HTTP error. -/
theorem C23_chat_signals_witness :
    ∃ c2 messages,
      sendMessage (FetchOutcome.notOk "HTTP 500")
          { construct "P" true with apiKey := "k", chatInput := "hi" } = Except.ok c2 ∧
        c2.isTyping = false ∧
        c2.effects
          = ({ construct "P" true with apiKey := "k", chatInput := "hi" } : ChatManager).effects ++
              [Effect.onChatStart, Effect.fetch messages] ++
              (match (sendToAI (FetchOutcome.notOk "HTTP 500")
                  { construct "P" true with apiKey := "k", chatInput := "hi" }).2 with
                | Except.ok _ => [Effect.onChatResponse]
                | Except.error _ => []) :=
  C23_chat_signals (FetchOutcome.notOk "HTTP 500")
    { construct "P" true with apiKey := "k", chatInput := "hi" }
    (by decide) rfl (by decide) rfl

/-! ## The length of the chat history -/

theorem limitMessages_length_le (c : ChatManager) (hm : 0 < c.maxMessages) :
    (limitMessages c).chatHistory.length ≤ c.maxMessages := by
  rw [limitMessages_chatHistory c hm]
  split
  · assumption
  · rw [List.length_drop]
    omega

theorem addMessageToUI_length_le (m : Message) (c : ChatManager) (hm : 0 < c.maxMessages) :
    (addMessageToUI m c).chatHistory.length ≤ c.maxMessages := by
  unfold addMessageToUI
  exact limitMessages_length_le { c with chatMessages := c.chatMessages ++ [m] } hm

theorem sendMessage_eq (outcome : FetchOutcome) (c : ChatManager) :
    sendMessage outcome c
      = Except.ok
          (if jsTrim c.chatInput = "" ∨ c.isTyping = true then c
           else if c.apiKey = "" then
            { c with
              effects :=
                c.effects ++
                  [Effect.showToast "Please configure your API key in settings first",
                   Effect.openSettings] }
           else setTyping false (sendMessageTry outcome (beforeTry c)).1) := by
  unfold sendMessage
  dsimp only
  split
  · rfl
  · split
    · rfl
    · show (match sendMessageTry outcome (beforeTry c) with
        | (c6, Except.ok _) => Except.ok (setTyping false c6)
        | (c6, Except.error _) => Except.ok (setTyping false c6)) = _
      rcases sendMessageTry outcome (beforeTry c) with ⟨c6, e | u⟩ <;> rfl

theorem beforeTry_length_le (c : ChatManager) (hm : 0 < c.maxMessages) :
    (beforeTry c).maxMessages = c.maxMessages ∧
      (beforeTry c).chatHistory.length ≤ c.maxMessages + 1 := by
  have huser := addMessageToUI_length_le { role := "user", content := jsTrim c.chatInput } c hm
  have hM := (addMessageToUI_frame { role := "user", content := jsTrim c.chatInput } c).2.2
  unfold beforeTry setTyping
  dsimp only
  split
  · refine ⟨hM, ?_⟩
    simp only [List.length_append, List.length_singleton]
    omega
  · refine ⟨hM, ?_⟩
    simp only [List.length_append, List.length_singleton]
    omega

theorem sendMessageTry_length_le (outcome : FetchOutcome) (c : ChatManager)
    (hm : 0 < c.maxMessages) (hlen : c.chatHistory.length ≤ c.maxMessages + 1) :
    (sendMessageTry outcome c).1.maxMessages = c.maxMessages ∧
      (sendMessageTry outcome c).1.chatHistory.length ≤ c.maxMessages + 1 := by
  cases outcome with
  | rejected e => exact ⟨rfl, hlen⟩
  | notOk e => exact ⟨rfl, hlen⟩
  | invalidFormat => exact ⟨rfl, hlen⟩
  | ok content =>
    have hassistant := addMessageToUI_length_le
      { role := "assistant", content := jsTrim content }
      { c with effects := c.effects ++ [Effect.fetch (requestMessages c)] } hm
    have hM := (addMessageToUI_frame { role := "assistant", content := jsTrim content }
      { c with effects := c.effects ++ [Effect.fetch (requestMessages c)] }).2.2
    unfold sendMessageTry sendToAI
    dsimp only
    split
    · refine ⟨hM, ?_⟩
      simp only [List.length_append, List.length_singleton]
      exact Nat.succ_le_succ hassistant
    · refine ⟨hM, ?_⟩
      simp only [List.length_append, List.length_singleton]
      exact Nat.succ_le_succ hassistant

theorem step_length_le (c : ChatManager) (e : Event)
    (h : c.maxMessages = 50 ∧ c.chatHistory.length ≤ 51) :
    (step c e).maxMessages = 50 ∧ (step c e).chatHistory.length ≤ 51 := by
  obtain ⟨hmax, hlen⟩ := h
  cases e with
  | sendMessage input outcome =>
    simp only [step, sendMessage_eq]
    split
    · exact ⟨hmax, hlen⟩
    · split
      · exact ⟨hmax, hlen⟩
      · have hb := beforeTry_length_le { c with chatInput := input }
          (by show 0 < c.maxMessages; omega)
        have ht := sendMessageTry_length_le outcome (beforeTry { c with chatInput := input })
          (by rw [hb.1]; show 0 < c.maxMessages; omega) (by rw [hb.1]; exact hb.2)
        have hc : (beforeTry { c with chatInput := input }).maxMessages = 50 :=
          hb.1.trans hmax
        constructor
        · show (sendMessageTry outcome (beforeTry { c with chatInput := input })).1.maxMessages
            = 50
          exact ht.1.trans hc
        · show (sendMessageTry outcome
              (beforeTry { c with chatInput := input })).1.chatHistory.length ≤ 51
          have h2 := ht.2
          rw [hc] at h2
          exact h2
  | loadSettings apiKey => exact ⟨hmax, hlen⟩
  | setVrmRenderer present => exact ⟨hmax, hlen⟩

theorem run_length_le (events : List Event) (c : ChatManager)
    (h : c.maxMessages = 50 ∧ c.chatHistory.length ≤ 51) :
    (run c events).maxMessages = 50 ∧ (run c events).chatHistory.length ≤ 51 := by
  induction events generalizing c with
  | nil => exact h
  | cons e rest ih => exact ih (step c e) (step_length_le c e h)

set_option maxRecDepth 1000000 in
/-- C22 (the code at the failing input). After the settings are loaded with an
API key, 26 `sendMessage` calls with successful requests leave a history of 51
messages, one more than `maxMessages = 50`: `limitMessages` runs inside
`addMessageToUI`, before the message is pushed. In every reachable state the
history holds at most `maxMessages + 1 = 51` messages. -/
theorem C22_history_exceeds_cap (systemPrompt : String) (vrmRenderer : Bool)
    (events : List Event) :
    (run (construct "P" true)
        ([Event.loadSettings "k"] ++
          List.replicate 26 (Event.sendMessage "hi" (FetchOutcome.ok "woof")))).chatHistory.length
        = 51 ∧
      (run (construct "P" true)
        ([Event.loadSettings "k"] ++
          List.replicate 26 (Event.sendMessage "hi" (FetchOutcome.ok "woof")))).maxMessages
        = 50 ∧
      (run (construct systemPrompt vrmRenderer) events).chatHistory.length ≤ 51 :=
  ⟨by decide, by decide,
    (run_length_le events (construct systemPrompt vrmRenderer) ⟨rfl, Nat.zero_le 51⟩).2⟩

end Chat
